import Mathlib

/- Verification of the rag-reliability-engine core against its specification.
   Python floats are embedded as exact rationals (ℚ); transcendental operations
   (math.exp, numpy std) are embedded over ℝ.  Fallible Python code (division
   that can raise ZeroDivisionError) is embedded with Option.  Python dicts are
   embedded as insertion-ordered association lists, and Python's stable sort
   (sorted) as insertion sort, which computes the same output as any stable
   sort for a total preorder. -/

/- ============ models/domain.py ============ -/

/-- Chunk (src/rag_engine/models/domain.py).  The metadata dict and optional
embedding play no role in the verified claims and are omitted. -/
structure Chunk where
  chunk_id : String
  doc_id : String
  text : String
  index : Nat
  token_count : Nat
deriving DecidableEq

/-- RetrievalCandidate (src/rag_engine/models/domain.py). -/
structure RetrievalCandidate where
  chunk : Chunk
  score : ℚ
  source_method : String
deriving DecidableEq

/-- RetrievalResult (src/rag_engine/models/domain.py). -/
structure RetrievalResult where
  candidates : List RetrievalCandidate
  quality_score : ℚ
  reason_codes : List String
  decision : String
deriving DecidableEq

/-- DecomposedQuery (src/rag_engine/models/domain.py). -/
structure DecomposedQuery where
  original : String
  sub_questions : List String
  synthesis_instruction : String

/-- ProcessedQuery (src/rag_engine/models/domain.py). -/
structure ProcessedQuery where
  normalized : String
  language : String
  intent : String

/-- GenerationResult (src/rag_engine/models/domain.py).  cited_spans entries
are (chunk_id, 200-character text preview) pairs. -/
structure GenerationResult where
  answer : String
  cited_chunks : List Chunk
  cited_spans : List (String × String)
deriving DecidableEq

/-- VerificationResult (src/rag_engine/models/domain.py). -/
structure VerificationResult where
  groundedness_score : ℚ
  contradiction_rate : ℚ
  self_consistency_score : Option ℚ
  decision : String
  reason_codes : List String
deriving DecidableEq

/- ============ models/schemas.py ============ -/

/-- QueryRequest (src/rag_engine/models/schemas.py).  latency_budget_ms only
feeds the self-consistency time gate, which is modelled by the oracle flag
scTimeLeft below, so it is not carried here. -/
structure QueryRequest where
  query : String
  mode : String

/-- Citation (src/rag_engine/models/schemas.py). -/
structure Citation where
  doc_id : String
  chunk_id : String
  text_snippet : String
deriving DecidableEq

/-- QueryResponse (src/rag_engine/models/schemas.py).  The debug block holds
only trace/latency diagnostics and is not part of any verified claim, so it is
omitted. -/
structure QueryResponse where
  answer : String
  citations : List Citation
  confidence : ℚ
  decision : String
  reasons : List String
deriving DecidableEq

/- ============ scoring/reason_codes.py (not present under src/) ============ -/

/-- Modelled from the spec: the module rag_engine/scoring/reason_codes.py is
imported by the pipeline and the scorers but is not part of the source tree;
the spec fixes the reason-code vocabulary as stable strings surfaced to
callers (spec §6), so each code is embedded as its stable string form. -/
def ReasonCode.NO_RESULTS : String := "NO_RESULTS"

/-- Modelled from the spec: stable string form of LOW_RELEVANCE. -/
def ReasonCode.LOW_RELEVANCE : String := "LOW_RELEVANCE"

/-- Modelled from the spec: stable string form of LOW_MARGIN. -/
def ReasonCode.LOW_MARGIN : String := "LOW_MARGIN"

/-- Modelled from the spec: stable string form of LOW_COVERAGE. -/
def ReasonCode.LOW_COVERAGE : String := "LOW_COVERAGE"

/-- Modelled from the spec: stable string form of LOW_CONSISTENCY. -/
def ReasonCode.LOW_CONSISTENCY : String := "LOW_CONSISTENCY"

/-- Modelled from the spec: stable string form of FALLBACK_USED. -/
def ReasonCode.FALLBACK_USED : String := "FALLBACK_USED"

/-- Modelled from the spec: stable string form of FALLBACK_FAILED. -/
def ReasonCode.FALLBACK_FAILED : String := "FALLBACK_FAILED"

/-- Modelled from the spec: stable string form of LOW_GROUNDEDNESS. -/
def ReasonCode.LOW_GROUNDEDNESS : String := "LOW_GROUNDEDNESS"

/-- Modelled from the spec: stable string form of CONTRADICTION_FOUND. -/
def ReasonCode.CONTRADICTION_FOUND : String := "CONTRADICTION_FOUND"

/-- Modelled from the spec: stable string form of SELF_INCONSISTENCY. -/
def ReasonCode.SELF_INCONSISTENCY : String := "SELF_INCONSISTENCY"

/- ============ config/settings.py ============ -/

/-- Settings (src/rag_engine/config/settings.py), restricted to the fields the
core query path reads. -/
structure Settings where
  bm25_top_k : Nat
  vector_top_k : Nat
  rrf_k : Nat
  rerank_top_n : Nat
  retrieval_fallback_expand_k : Nat
  rq_proceed_threshold : ℚ
  rq_fallback_threshold : ℚ
  rq_w_relevance : ℚ
  rq_w_margin : ℚ
  rq_w_coverage : ℚ
  rq_w_consistency : ℚ
  conf_alpha : ℚ
  conf_beta : ℚ
  conf_gamma : ℚ
  groundedness_pass_threshold : ℚ
  groundedness_warn_threshold : ℚ
  contradiction_pass_threshold : ℚ
  contradiction_warn_threshold : ℚ
  strict_rq_proceed_threshold : ℚ
  strict_groundedness_pass_threshold : ℚ
  strict_contradiction_pass_threshold : ℚ

/-- Default Settings values (src/rag_engine/config/settings.py lines 23-56). -/
def defaultSettings : Settings where
  bm25_top_k := 50
  vector_top_k := 50
  rrf_k := 60
  rerank_top_n := 10
  retrieval_fallback_expand_k := 100
  rq_proceed_threshold := 0.55
  rq_fallback_threshold := 0.25
  rq_w_relevance := 0.45
  rq_w_margin := 0.20
  rq_w_coverage := 0.15
  rq_w_consistency := 0.20
  conf_alpha := 0.50
  conf_beta := 0.35
  conf_gamma := 0.15
  groundedness_pass_threshold := 0.7
  groundedness_warn_threshold := 0.5
  contradiction_pass_threshold := 0.2
  contradiction_warn_threshold := 0.4
  strict_rq_proceed_threshold := 0.70
  strict_groundedness_pass_threshold := 0.85
  strict_contradiction_pass_threshold := 0.1

/- ============ retrieval/rrf.py ============ -/

/-- One `scores[chunk_id] += v` step on the defaultdict of
reciprocal_rank_fusion (src/rag_engine/retrieval/rrf.py line 24).  A Python
dict keeps insertion order: an existing key is updated in place, a new key is
appended at the end with default value 0.0 plus the contribution. -/
def rrfBump : List (String × ℚ) → String → ℚ → List (String × ℚ)
  | [], cid, v => [(cid, v)]
  | (c, s) :: rest, cid, v =>
      if c = cid then (c, s + v) :: rest else (c, s) :: rrfBump rest cid v

/-- The inner loop `for rank, (chunk_id, _) in enumerate(result_list)` of
reciprocal_rank_fusion, carried out from a given starting rank. -/
def rrfAddList (k : ℕ) : List (String × ℚ) → ℕ → List (String × ℚ) → List (String × ℚ)
  | acc, _, [] => acc
  | acc, rank, (cid, _) :: rest =>
      rrfAddList k (rrfBump acc cid (1 / (k + rank + 1))) (rank + 1) rest

/-- The fused-score dictionary accumulated by reciprocal_rank_fusion before
sorting (src/rag_engine/retrieval/rrf.py lines 21-24). -/
def rrfScores (result_lists : List (List (String × ℚ))) (k : ℕ) : List (String × ℚ) :=
  result_lists.foldl (fun acc l => rrfAddList k acc 0 l) []

/-- reciprocal_rank_fusion (src/rag_engine/retrieval/rrf.py).  Python's
`sorted(..., key=lambda x: x[1], reverse=True)` is a stable descending sort by
fused score; insertion sort with the total preorder `a.2 ≥ b.2` computes the
same stable result. -/
def reciprocal_rank_fusion (result_lists : List (List (String × ℚ))) (k : ℕ := 60) :
    List (String × ℚ) :=
  List.insertionSort (fun a b : String × ℚ => a.2 ≥ b.2) (rrfScores result_lists k)

/- ============ vectorstore/faiss_store.py ============ -/

/-- The id-mapping state of FAISSVectorStore
(src/rag_engine/vectorstore/faiss_store.py lines 23-25).  The FAISS index
itself is an external backend; its search results are treated as an oracle
input to `search`. -/
structure FAISSVectorStore where
  id_to_chunk_id : List (ℕ × String)
  chunk_id_to_int : List (String × ℕ)
  next_id : ℕ

/-- Fresh store state as built by FAISSVectorStore.__init__ with no persisted
index to load. -/
def FAISSVectorStore.init : FAISSVectorStore where
  id_to_chunk_id := []
  chunk_id_to_int := []
  next_id := 0

/-- One iteration of the loop in FAISSVectorStore._assign_int_ids
(src/rag_engine/vectorstore/faiss_store.py lines 95-102). -/
def FAISSVectorStore.assignOne (s : FAISSVectorStore) (cid : String) :
    ℕ × FAISSVectorStore :=
  match s.chunk_id_to_int.lookup cid with
  | some i => (i, s)
  | none =>
      (s.next_id,
       { id_to_chunk_id := s.id_to_chunk_id ++ [(s.next_id, cid)]
         chunk_id_to_int := s.chunk_id_to_int ++ [(cid, s.next_id)]
         next_id := s.next_id + 1 })

/-- FAISSVectorStore._assign_int_ids
(src/rag_engine/vectorstore/faiss_store.py lines 93-103). -/
def FAISSVectorStore.assign_int_ids (s : FAISSVectorStore) :
    List String → List ℕ × FAISSVectorStore
  | [] => ([], s)
  | cid :: rest =>
      let (i, s1) := s.assignOne cid
      let (is, s2) := s1.assign_int_ids rest
      (i :: is, s2)

/-- FAISSVectorStore.add (src/rag_engine/vectorstore/faiss_store.py lines
43-50), restricted to its effect on the id-mapping state; the embedding matrix
goes to the external FAISS backend. -/
def FAISSVectorStore.add (s : FAISSVectorStore) (chunk_ids : List String) :
    FAISSVectorStore :=
  if chunk_ids = [] then s else (s.assign_int_ids chunk_ids).2

/-- FAISSVectorStore.search (src/rag_engine/vectorstore/faiss_store.py lines
56-70).  `backend` is the (index, score) list produced by the external FAISS
index for the query; the method drops -1 sentinels, resolves indices through
_id_to_chunk_id and keeps truthy (non-empty) chunk ids. -/
def FAISSVectorStore.search (s : FAISSVectorStore) (backend : List (ℤ × ℚ)) :
    List (String × ℚ) :=
  backend.filterMap fun (idx, score) =>
    if idx = -1 then none
    else
      match (if 0 ≤ idx then s.id_to_chunk_id.lookup idx.toNat else none) with
      | some cid => if cid = "" then none else some (cid, score)
      | none => none

/-- A whole ingest history: fold FAISSVectorStore.add over a sequence of add
calls, starting from the fresh store. -/
def FAISSVectorStore.addAll (ops : List (List String)) : FAISSVectorStore :=
  ops.foldl FAISSVectorStore.add FAISSVectorStore.init

/- ============ generation/prompt_templates.py ============ -/

/-- ANSWER_GENERATION_SYSTEM (src/rag_engine/generation/prompt_templates.py). -/
def ANSWER_GENERATION_SYSTEM : String :=
  "You are a precise, factual assistant. Answer questions using ONLY the provided evidence.\nRules:\n- Cite evidence using [1], [2], etc. markers matching the evidence numbers.\n- If the evidence doesn't contain enough information, say so clearly.\n- Never make up information not present in the evidence.\n- Be concise and direct."

/-- ANSWER_GENERATION_STRICT_SYSTEM
(src/rag_engine/generation/prompt_templates.py). -/
def ANSWER_GENERATION_STRICT_SYSTEM : String :=
  "You are a precise, factual assistant operating in STRICT mode.\nRules:\n- ONLY state facts that are DIRECTLY and EXPLICITLY supported by the evidence.\n- Cite every claim with [1], [2], etc.\n- If ANY doubt exists about whether the evidence supports a claim, do NOT include it.\n- If evidence is insufficient, state exactly what information is missing.\n- Never infer, extrapolate, or generalize beyond the evidence."

/-- QUERY_REWRITE_PROMPT (src/rag_engine/generation/prompt_templates.py),
with the query interpolated. -/
def QUERY_REWRITE_PROMPT (query : String) : String :=
  "The following query didn't retrieve good results. Generate 3 alternative versions of this query that might retrieve better results. Use synonyms, rephrasings, and different angles.\n\nOriginal query: " ++ query ++ "\n\nReturn a JSON object:\n- \"rewrites\": list of 3 alternative query strings"

/-- One numbered line `[i] text` of the evidence block
(src/rag_engine/generation/prompt_templates.py line 90), for retrieval
candidates (the hasattr branch resolves to chunk.chunk.text). -/
def evidenceLine (i : ℕ) (c : RetrievalCandidate) : String :=
  "[" ++ toString i ++ "] " ++ c.chunk.text

/-- Numbering loop of format_evidence_block: enumerate(chunks[:max_chunks], 1). -/
def evidenceLines (start : ℕ) : List RetrievalCandidate → List String
  | [] => []
  | c :: rest => evidenceLine start c :: evidenceLines (start + 1) rest

/-- format_evidence_block (src/rag_engine/generation/prompt_templates.py
lines 85-91) with the default max_chunks = 10. -/
def format_evidence_block (chunks : List RetrievalCandidate) (max_chunks : ℕ := 10) :
    String :=
  String.intercalate "\n\n" (evidenceLines 1 (chunks.take max_chunks))

/-- Numbered sub-question lines of format_decomposition_context. -/
def decompLines (start : ℕ) : List String → List String
  | [] => []
  | sq :: rest => ("  " ++ toString start ++ ". " ++ sq) :: decompLines (start + 1) rest

/-- format_decomposition_context (src/rag_engine/generation/prompt_templates.py
lines 94-103). -/
def format_decomposition_context (sub_questions : List String) (synthesis : String) :
    String :=
  if sub_questions.length ≤ 1 then ""
  else
    String.intercalate "\n"
      (["Consider these aspects:"] ++ decompLines 1 sub_questions ++
        (if synthesis = "" then [] else ["\nSynthesis approach: " ++ synthesis]))

/-- ANSWER_GENERATION_PROMPT (src/rag_engine/generation/prompt_templates.py
lines 10-17) with the three fields interpolated. -/
def ANSWER_GENERATION_PROMPT (query evidence_block decomposition_context : String) :
    String :=
  "Question: " ++ query ++ "\n\nEvidence:\n" ++ evidence_block ++ "\n\n" ++
    decomposition_context ++ "\n\nProvide a clear, well-cited answer based on the evidence above."

/- ============ generation/answer_generator.py ============ -/

/-- Scanner state and transitions equivalent to `re.findall(r"\[(\d+)\]", s)`
(src/rag_engine/generation/answer_generator.py line 53): the regex engine
scans left to right, restarting one character after each failed start, and
continues after each complete `[digits]` match.  The optional state carries
(accumulated digit value, whether at least one digit was read) for a candidate
match currently open at a previous '['. -/
def findMarkersAux : List Char → Option (ℕ × Bool) → List ℕ
  | [], _ => []
  | c :: rest, none =>
      if c = '[' then findMarkersAux rest (some (0, false))
      else findMarkersAux rest none
  | c :: rest, some (acc, seen) =>
      if c.isDigit then findMarkersAux rest (some (acc * 10 + (c.toNat - 48), true))
      else if c = ']' ∧ seen = true then acc :: findMarkersAux rest none
      else if c = '[' then findMarkersAux rest (some (0, false))
      else findMarkersAux rest none

/-- All integers m with `[m]` a bracketed marker occurrence in the answer, in
order of occurrence, as found by re.findall. -/
def findMarkers (s : String) : List ℕ :=
  findMarkersAux s.data none

/-- The cited indices `sorted(set(int(m) for m in re.findall(...)))` of
AnswerGenerator.generate (src/rag_engine/generation/answer_generator.py lines
53-56): distinct marker values in increasing order. -/
def citedIndices (answer : String) : List ℕ :=
  List.insertionSort (· ≤ ·) (findMarkers answer).dedup

/-- The loop of AnswerGenerator.generate mapping valid 1-based cited indices
back to evidence chunks (src/rag_engine/generation/answer_generator.py lines
56-65): keep idx with 1 ≤ idx ≤ len(evidence) and take evidence[idx-1].chunk. -/
def citedChunksFor (answer : String) (evidence : List RetrievalCandidate) :
    List Chunk :=
  (citedIndices answer).filterMap fun idx =>
    if 1 ≤ idx then (evidence.get? (idx - 1)).map (·.chunk) else none

/-- The cited_spans companion list of the same loop: (chunk_id, first 200
characters of the chunk text). -/
def citedSpansFor (answer : String) (evidence : List RetrievalCandidate) :
    List (String × String) :=
  (citedChunksFor answer evidence).map fun ch => (ch.chunk_id, ch.text.take 200)

/-- AnswerGenerator.generate (src/rag_engine/generation/answer_generator.py
lines 28-78).  `llmGen prompt system` is the LLM collaborator's answer to the
prompt; the decomposition context is included only when the plan has more than
one sub-question. -/
def AnswerGenerator.generate (llmGen : String → String → String) (query : String)
    (evidence : List RetrievalCandidate) (decomposition : Option DecomposedQuery)
    (mode : String) : GenerationResult :=
  let decomp_context :=
    match decomposition with
    | some d =>
        if 1 < d.sub_questions.length then
          format_decomposition_context d.sub_questions d.synthesis_instruction
        else ""
    | none => ""
  let prompt := ANSWER_GENERATION_PROMPT query (format_evidence_block evidence) decomp_context
  let system :=
    if mode = "strict" then ANSWER_GENERATION_STRICT_SYSTEM else ANSWER_GENERATION_SYSTEM
  let answer := llmGen prompt system
  { answer := answer
    cited_chunks := citedChunksFor answer evidence
    cited_spans := citedSpansFor answer evidence }

/- ============ verification/decision.py ============ -/

/-- VerificationDecisionMaker.decide (src/rag_engine/verification/decision.py
lines 14-55). -/
def VerificationDecisionMaker.decide (s : Settings) (groundedness contradiction_rate : ℚ)
    (self_consistency : Option ℚ) (mode : String) : VerificationResult :=
  let ground_pass :=
    if mode = "strict" then s.strict_groundedness_pass_threshold
    else s.groundedness_pass_threshold
  let contra_pass :=
    if mode = "strict" then s.strict_contradiction_pass_threshold
    else s.contradiction_pass_threshold
  let ground_warn := s.groundedness_warn_threshold
  let contra_warn := s.contradiction_warn_threshold
  let reason_codes :=
    (if groundedness < ground_warn then [ReasonCode.LOW_GROUNDEDNESS] else []) ++
    (if contra_warn < contradiction_rate then [ReasonCode.CONTRADICTION_FOUND] else []) ++
    (match self_consistency with
     | some sc => if sc < 0.4 then [ReasonCode.SELF_INCONSISTENCY] else []
     | none => [])
  let decision :=
    if ground_pass ≤ groundedness ∧ contradiction_rate ≤ contra_pass then "pass"
    else if ground_warn ≤ groundedness ∧ contradiction_rate ≤ contra_warn then "warn"
    else "abstain"
  { groundedness_score := groundedness
    contradiction_rate := contradiction_rate
    self_consistency_score := self_consistency
    decision := decision
    reason_codes := reason_codes }

/- ============ scoring/confidence.py ============ -/

/-- ConfidenceScorer.score (src/rag_engine/scoring/confidence.py lines 14-16):
max(0.0, min(1.0, alpha*rq + beta*groundedness - gamma*contradiction_rate)). -/
def ConfidenceScorer.score (s : Settings) (rq groundedness contradiction_rate : ℚ) : ℚ :=
  max 0 (min 1 (s.conf_alpha * rq + s.conf_beta * groundedness -
    s.conf_gamma * contradiction_rate))

/- ============ scoring/retrieval_quality.py ============ -/

/-- The epsilon constant 1e-8 appearing in RetrievalQualityScorer.score. -/
def rqEps : ℚ := 1e-8

/-- RetrievalQualityScorer._sigmoid_normalize
(src/rag_engine/scoring/retrieval_quality.py lines 68-71) with the default
midpoint 0.5 and steepness 10: 1 / (1 + exp(-10*(x - 0.5))). -/
noncomputable def sigmoid_normalize (x : ℚ) : ℝ :=
  1 / (1 + Real.exp (-(10 : ℝ) * ((x : ℝ) - 0.5)))

/-- Clamp to [0,1] over ℚ: max(0.0, min(1.0, x)). -/
def clamp01 (x : ℚ) : ℚ := max 0 (min 1 x)

/-- Clamp to [0,1] over ℝ. -/
noncomputable def clamp01R (x : ℝ) : ℝ := max 0 (min 1 x)

/-- The relevance component of RetrievalQualityScorer.score (line 30):
sigmoid-normalized top score. -/
noncomputable def rqRelevance (s0 : ℚ) : ℝ := sigmoid_normalize s0

/-- The margin component (lines 33-37): (s0 - s1)/(|s0| + 1e-8) clamped to
[0,1] when a second score exists, else 1.0.  The denominator |s0| + 1e-8 is
always positive, so this division cannot raise. -/
def rqMargin (s0 : ℚ) (rest : List ℚ) : ℚ :=
  match rest with
  | [] => 1
  | s1 :: _ => clamp01 ((s0 - s1) / (|s0| + rqEps))

/-- The coverage component (lines 40-41): unique doc ids over total
candidates, capped at 1. -/
def rqCoverage (cs : List RetrievalCandidate) : ℚ :=
  min (((cs.map (·.chunk.doc_id)).dedup.length : ℚ) / (max cs.length 1 : ℕ)) 1

/-- Population standard deviation of a list of scores, as computed by
numpy.std: sqrt of the mean squared deviation from the mean. -/
noncomputable def npStd (l : List ℚ) : ℝ :=
  Real.sqrt (((l.map fun x => ((x : ℝ) - ((l.sum / l.length : ℚ) : ℝ)) ^ 2).sum) / l.length)

/-- The consistency component (lines 44-51): over the top 5 scores,
1 - std/(mean + 1e-8) clamped to [0,1] when at least two scores exist, else
1.0.  Python raises ZeroDivisionError when mean + 1e-8 == 0, embedded as
none. -/
noncomputable def rqConsistency (scores : List ℚ) : Option ℝ :=
  let top_scores := scores.take 5
  if 1 < top_scores.length then
    let mean_s : ℚ := top_scores.sum / top_scores.length
    if mean_s + rqEps = 0 then none
    else some (clamp01R (1 - npStd top_scores / ((mean_s : ℝ) + (rqEps : ℝ))))
  else some 1

open Classical in
/-- RetrievalQualityScorer.score (src/rag_engine/scoring/retrieval_quality.py
lines 21-66) with the default weights.  Returns none exactly when the Python
code raises ZeroDivisionError while computing the consistency component. -/
noncomputable def RetrievalQualityScorer.score (s : Settings)
    (candidates : List RetrievalCandidate) : Option (ℝ × List String) :=
  match candidates with
  | [] => some (0, [ReasonCode.NO_RESULTS])
  | c0 :: rest =>
      let scores : List ℚ := (c0 :: rest).map (·.score)
      let rel : ℝ := rqRelevance c0.score
      let margin : ℚ := rqMargin c0.score (rest.map (·.score))
      let coverage : ℚ := rqCoverage (c0 :: rest)
      match rqConsistency scores with
      | none => none
      | some consistency =>
          let rq : ℝ := clamp01R ((s.rq_w_relevance : ℝ) * rel +
            (s.rq_w_margin : ℝ) * (margin : ℝ) + (s.rq_w_coverage : ℝ) * (coverage : ℝ) +
            (s.rq_w_consistency : ℝ) * consistency)
          let reason_codes : List String :=
            (if rel < 0.4 then [ReasonCode.LOW_RELEVANCE] else []) ++
            (if margin < 0.1 then [ReasonCode.LOW_MARGIN] else []) ++
            (if coverage < 0.3 then [ReasonCode.LOW_COVERAGE] else []) ++
            (if consistency < 0.3 then [ReasonCode.LOW_CONSISTENCY] else [])
          some (rq, reason_codes)

/- ============ pipeline/query_pipeline.py helpers ============ -/

/-- Python's round(x, 4) on the exact value: round half to even at the fourth
decimal place. -/
def pyRoundInt (q : ℚ) : ℤ :=
  if Int.fract q < 1/2 then ⌊q⌋
  else if 1/2 < Int.fract q then ⌈q⌉
  else if Even ⌊q⌋ then ⌊q⌋ else ⌈q⌉

/-- Python's round(x, 4): scale by 10^4, round half to even, scale back. -/
def pyRound4 (q : ℚ) : ℚ := (pyRoundInt (q * 10000) : ℚ) / 10000

/-- Contiguous-substring test on character lists: Python's `needle in
haystack` for strings. -/
def charSubstr (needle : List Char) : List Char → Bool
  | [] => needle.isEmpty
  | c :: rest => needle.isPrefixOf (c :: rest) || charSubstr needle rest

/-- Case-insensitive substring test: Python's `phrase in answer.lower()`.
str.lower maps characters pointwise. -/
def containsPhrase (haystack : List Char) (needle : String) : Bool :=
  charSubstr needle.data haystack

/-- The fixed refusal allow-list of QueryPipeline._answer_admits_ignorance
(src/rag_engine/pipeline/query_pipeline.py lines 515-537). -/
def refusalPatterns : List String :=
  ["do not contain information", "does not contain information",
   "do not contain the answer", "does not contain the answer",
   "do not contain the necessary", "do not contain the coordinates",
   "don't contain information", "doesn't contain information",
   "cannot answer the question", "cannot answer this question",
   "unable to answer", "i cannot provide an answer", "i am unable to",
   "no relevant information", "outside the scope of", "is not discussed in",
   "are not discussed in", "not contain any information", "do not address",
   "does not address", "not provided in the evidence"]

/-- QueryPipeline._answer_admits_ignorance
(src/rag_engine/pipeline/query_pipeline.py lines 506-538): true iff any
refusal phrase occurs in answer.lower(). -/
def answerAdmitsIgnorance (answer : String) : Bool :=
  refusalPatterns.any (containsPhrase (answer.data.map Char.toLower))

/-- QueryPipeline._map_decision (src/rag_engine/pipeline/query_pipeline.py
lines 540-548). -/
def mapDecision (verification_decision : String) : String :=
  if verification_decision = "pass" then "answer"
  else if verification_decision = "warn" then "clarify"
  else "abstain"

/-- One step of QueryPipeline._deduplicate
(src/rag_engine/pipeline/query_pipeline.py lines 499-503): keyed on chunk_id,
a strictly higher score replaces the stored candidate in place, a new
chunk_id is appended. -/
def dedupInsert : List RetrievalCandidate → RetrievalCandidate → List RetrievalCandidate
  | [], c => [c]
  | e :: rest, c =>
      if e.chunk.chunk_id = c.chunk.chunk_id then
        (if e.score < c.score then c else e) :: rest
      else e :: dedupInsert rest c

/-- QueryPipeline._deduplicate (src/rag_engine/pipeline/query_pipeline.py
lines 494-504): deduplicate by chunk_id keeping the highest score, output in
first-seen order (Python dict insertion order). -/
def deduplicate (candidates : List RetrievalCandidate) : List RetrievalCandidate :=
  candidates.foldl dedupInsert []

/-- The text truncation `c.text[:200]` used when building Citation objects. -/
def toCitation (c : Chunk) : Citation :=
  { doc_id := c.doc_id, chunk_id := c.chunk_id, text_snippet := c.text.take 200 }

/-- The fixed refusal string of QueryPipeline._build_abstain_response
(src/rag_engine/pipeline/query_pipeline.py line 435). -/
def abstainRefusal : String :=
  "I cannot provide a reliable answer. The retrieved evidence is insufficient for this question."

/-- The distinct fixed refusal string used on the verifier-abstain path of
QueryPipeline.execute (src/rag_engine/pipeline/query_pipeline.py lines
201-204). -/
def verifierAbstainText : String :=
  "I cannot provide a reliable answer to this question. The evidence is insufficient or contradictory."

/-- The fixed clarify caveat appended to the answer
(src/rag_engine/pipeline/query_pipeline.py lines 205-210 and 457-461). -/
def clarifyCaveat : String :=
  "\n\nNote: This answer has moderate uncertainty. Some claims may not be fully supported by the available evidence."

/-- QueryPipeline._build_abstain_response
(src/rag_engine/pipeline/query_pipeline.py lines 418-446), restricted to the
response fields (the trace write is fire-and-forget observability). -/
def buildAbstainResponse (reasons : List String) : QueryResponse :=
  { answer := abstainRefusal
    citations := []
    confidence := 0
    decision := "abstain"
    reasons := reasons }

/-- QueryPipeline._build_clarify_response
(src/rag_engine/pipeline/query_pipeline.py lines 448-492): answer plus caveat,
citations preserved, confidence = round(rq * 0.5, 4). -/
def buildClarifyResponse (gen : GenerationResult) (rq_score : ℚ)
    (reasons : List String) : QueryResponse :=
  { answer := gen.answer ++ clarifyCaveat
    citations := gen.cited_chunks.map toCitation
    confidence := pyRound4 (rq_score * 0.5)
    decision := "clarify"
    reasons := reasons }

/-- The deterministic behaviours of the collaborators injected into
QueryPipeline.__init__ (src/rag_engine/pipeline/query_pipeline.py lines
35-65) and FallbackManager.__init__.  The LLM's streaming call is modelled by
its fragment list, whose concatenation is the answer its non-streaming call
returns; scTimeLeft models the remaining-budget check `remaining_ms > 1500`
before self-consistency. -/
structure Collab where
  quNormalize : String → String
  decompose : String → DecomposedQuery
  retrieve : String → ℕ → ℕ → List RetrievalCandidate
  rerank : String → List RetrievalCandidate → ℕ → List RetrievalCandidate
  rqScore : List RetrievalCandidate → ℚ × List String
  llmRewriteStructured : String → Option (List String)
  llmRewriteManual : String → Option (List String)
  llmChunks : String → String → List String
  groundedness : String → List Chunk → String → ℚ
  contradiction : String → List Chunk → ℚ
  selfConsistency : String → List Chunk → String → ℚ
  scTimeLeft : Bool

/-- The LLM's non-streaming generate call: the concatenation of the fragments
generate_stream would yield for the same prompt and system. -/
def Collab.llmGen (o : Collab) (prompt system : String) : String :=
  String.join (o.llmChunks prompt system)

/- ============ retrieval/fallback.py ============ -/

/-- FallbackManager.query_rewrite (src/rag_engine/retrieval/fallback.py lines
36-54): structured output first, then plain generation with manual JSON
parsing, empty list when both fail; at most 3 rewrites are kept. -/
def FallbackManager.query_rewrite (o : Collab) (query : String) : List String :=
  match o.llmRewriteStructured (QUERY_REWRITE_PROMPT query) with
  | some rewrites => rewrites.take 3
  | none =>
      match o.llmRewriteManual (QUERY_REWRITE_PROMPT query) with
      | some rewrites => rewrites.take 3
      | none => []

/-- FallbackManager.expanded_retrieval (src/rag_engine/retrieval/fallback.py
lines 26-34): hybrid retrieval with expand_k on both sides, then rerank to
rerank_top_n. -/
def FallbackManager.expanded_retrieval (o : Collab) (s : Settings) (query : String) :
    List RetrievalCandidate :=
  o.rerank query
    (o.retrieve query s.retrieval_fallback_expand_k s.retrieval_fallback_expand_k)
    s.rerank_top_n

/-- The per-rewrite candidate set of the rewrite loop
(src/rag_engine/retrieval/fallback.py lines 77-80): retrieve with the
call-site default top_k values 50/50, then rerank against the original
query. -/
def FallbackManager.rewriteCandidates (o : Collab) (s : Settings)
    (query rewrite : String) : List RetrievalCandidate :=
  o.rerank query (o.retrieve rewrite 50 50) s.rerank_top_n

/-- The best-so-far fold of the rewrite loop
(src/rag_engine/retrieval/fallback.py lines 72-85): a rewrite replaces the
best candidate set only when its RQ is strictly higher. -/
def FallbackManager.bestOf (o : Collab) (s : Settings) (query : String)
    (init : List RetrievalCandidate × ℚ × List String) (rewrites : List String) :
    List RetrievalCandidate × ℚ × List String :=
  rewrites.foldl
    (fun best rw =>
      let new_reranked := FallbackManager.rewriteCandidates o s query rw
      let (new_rq, new_reasons) := o.rqScore new_reranked
      if best.2.1 < new_rq then (new_reranked, new_rq, new_reasons) else best)
    init

/-- FallbackManager.fallback_retrieve (src/rag_engine/retrieval/fallback.py
lines 56-100). -/
def FallbackManager.fallback_retrieve (o : Collab) (s : Settings) (query : String) :
    RetrievalResult :=
  let candidates := FallbackManager.expanded_retrieval o s query
  let (rq_score, reason_codes) := o.rqScore candidates
  if s.rq_proceed_threshold ≤ rq_score then
    { candidates := candidates, quality_score := rq_score,
      reason_codes := reason_codes, decision := "proceed" }
  else
    let rewrites := FallbackManager.query_rewrite o query
    let best := FallbackManager.bestOf o s query (candidates, rq_score, reason_codes) rewrites
    if s.rq_fallback_threshold ≤ best.2.1 then
      { candidates := best.1, quality_score := best.2.1,
        reason_codes := best.2.2, decision := "proceed" }
    else
      { candidates := best.1, quality_score := best.2.1,
        reason_codes := best.2.2, decision := "abstain" }

/- ============ pipeline/query_pipeline.py ============ -/

/-- Steps 1-5 of QueryPipeline.execute and QueryPipeline.execute_stream
(src/rag_engine/pipeline/query_pipeline.py lines 71-107 and 258-290, which
are textually identical): query understanding, decomposition, per-sub-question
hybrid retrieval, deduplication, reranking and RQ scoring.  Returns
(normalized query, decomposition, reranked candidates, rq_score, rq_reasons). -/
def pipelinePrefix (o : Collab) (s : Settings) (req : QueryRequest) :
    String × DecomposedQuery × List RetrievalCandidate × ℚ × List String :=
  let normalized := o.quNormalize req.query
  let decomposed := o.decompose normalized
  let all_candidates :=
    decomposed.sub_questions.foldl
      (fun acc sq => acc ++ o.retrieve sq s.bm25_top_k s.vector_top_k) []
  let reranked := o.rerank normalized (deduplicate all_candidates) s.rerank_top_n
  let (rq_score, rq_reasons) := o.rqScore reranked
  (normalized, decomposed, reranked, rq_score, rq_reasons)

/-- Outcome of the RQ decision gate (step 6): either an early abstain with the
reasons to report, or permission to generate with the (possibly
fallback-replaced) candidates, rq score and reasons. -/
inductive GateOutcome where
  | abstained (reasons : List String)
  | proceed (cands : List RetrievalCandidate) (rq : ℚ) (reasons : List String)

/-- Step 6 of QueryPipeline.execute / execute_stream
(src/rag_engine/pipeline/query_pipeline.py lines 109-131 and 292-319): below
the fallback threshold abstain immediately; between the thresholds run the
fallback manager, abstaining with FALLBACK_FAILED or adopting its candidates
with FALLBACK_USED; at or above the mode's proceed threshold continue
unchanged. -/
def gateStep (o : Collab) (s : Settings) (mode normalized : String)
    (reranked : List RetrievalCandidate) (rq_score : ℚ) (rq_reasons : List String) :
    GateOutcome :=
  let proceed_threshold :=
    if mode = "strict" then s.strict_rq_proceed_threshold else s.rq_proceed_threshold
  if rq_score < s.rq_fallback_threshold then .abstained rq_reasons
  else if rq_score < proceed_threshold then
    let fallback_result := FallbackManager.fallback_retrieve o s normalized
    if fallback_result.decision = "abstain" then
      .abstained (rq_reasons ++ [ReasonCode.FALLBACK_FAILED])
    else
      .proceed fallback_result.candidates fallback_result.quality_score
        (rq_reasons ++ [ReasonCode.FALLBACK_USED])
  else .proceed reranked rq_score rq_reasons

/-- Steps 8-9 of QueryPipeline.execute / execute_stream
(src/rag_engine/pipeline/query_pipeline.py lines 161-194 and 345-379):
groundedness and contradiction checks, optional self-consistency under the
latency budget, the verification decision, and the final confidence.  Returns
(verification result, confidence before rounding). -/
def verifyStep (o : Collab) (s : Settings) (mode normalized : String)
    (cands : List RetrievalCandidate) (rq : ℚ) (answer : String) :
    VerificationResult × ℚ :=
  let evidence_chunks := cands.map (·.chunk)
  let groundedness_score := o.groundedness answer evidence_chunks normalized
  let contradiction_rate := o.contradiction answer evidence_chunks
  let sc_score :=
    if o.scTimeLeft then some (o.selfConsistency normalized evidence_chunks answer)
    else none
  let verification :=
    VerificationDecisionMaker.decide s groundedness_score contradiction_rate sc_score mode
  let confidence :=
    ConfidenceScorer.score s rq groundedness_score contradiction_rate
  (verification, confidence)

/-- Step 10 of QueryPipeline.execute (src/rag_engine/pipeline/query_pipeline.py
lines 196-233): decision mapping and response assembly, substituting the
fixed refusal text on abstain and appending the caveat on clarify. -/
def buildFinalResponse (gen : GenerationResult) (verification : VerificationResult)
    (confidence : ℚ) (reasons : List String) : QueryResponse :=
  let all_reasons := reasons ++ verification.reason_codes
  let decision := mapDecision verification.decision
  let answer_text :=
    if decision = "abstain" then verifierAbstainText
    else if decision = "clarify" then gen.answer ++ clarifyCaveat
    else gen.answer
  { answer := answer_text
    citations := gen.cited_chunks.map toCitation
    confidence := pyRound4 confidence
    decision := decision
    reasons := all_reasons }

/-- QueryPipeline.execute (src/rag_engine/pipeline/query_pipeline.py lines
67-245), as a function of the injected collaborators' behaviour. -/
def QueryPipeline.execute (o : Collab) (s : Settings) (req : QueryRequest) :
    QueryResponse :=
  let (normalized, decomposed, reranked, rq_score, rq_reasons) := pipelinePrefix o s req
  match gateStep o s req.mode normalized reranked rq_score rq_reasons with
  | .abstained reasons => buildAbstainResponse reasons
  | .proceed cands rq reasons =>
      let gen := AnswerGenerator.generate o.llmGen normalized cands (some decomposed) req.mode
      if answerAdmitsIgnorance gen.answer then
        let reasons2 := reasons ++ [ReasonCode.LOW_GROUNDEDNESS]
        if s.rq_proceed_threshold ≤ rq then buildClarifyResponse gen rq reasons2
        else buildAbstainResponse reasons2
      else
        let (verification, confidence) := verifyStep o s req.mode normalized cands rq gen.answer
        buildFinalResponse gen verification confidence reasons

/-- One Server-Sent Event yielded by QueryPipeline.execute_stream. -/
inductive SSEvent where
  | token (data : String)
  | metadata (response : QueryResponse)
  | done
deriving DecidableEq

/-- The final metadata payload assembled at the end of the streaming path
(src/rag_engine/pipeline/query_pipeline.py lines 384-403): identical to step
10 of execute except that the answer field is the raw generated answer with no
refusal substitution and no clarify caveat. -/
def buildStreamMetadata (gen : GenerationResult) (verification : VerificationResult)
    (confidence : ℚ) (reasons : List String) : QueryResponse :=
  let all_reasons := reasons ++ verification.reason_codes
  let decision := mapDecision verification.decision
  { answer := gen.answer
    citations := gen.cited_chunks.map toCitation
    confidence := pyRound4 confidence
    decision := decision
    reasons := all_reasons }

/-- QueryPipeline.execute_stream (src/rag_engine/pipeline/query_pipeline.py
lines 247-416) as the list of events it yields.  Generation streams the LLM
fragments as token events and assembles the same GenerationResult from their
concatenation (answer_generator.py lines 80-137). -/
def QueryPipeline.execute_stream (o : Collab) (s : Settings) (req : QueryRequest) :
    List SSEvent :=
  let (normalized, decomposed, reranked, rq_score, rq_reasons) := pipelinePrefix o s req
  match gateStep o s req.mode normalized reranked rq_score rq_reasons with
  | .abstained reasons =>
      [.metadata (buildAbstainResponse reasons), .done]
  | .proceed cands rq reasons =>
      let gen := AnswerGenerator.generate o.llmGen normalized cands (some decomposed) req.mode
      let prompt := ANSWER_GENERATION_PROMPT normalized (format_evidence_block cands)
        (match some decomposed with
         | some d =>
             if 1 < d.sub_questions.length then
               format_decomposition_context d.sub_questions d.synthesis_instruction
             else ""
         | none => "")
      let system :=
        if req.mode = "strict" then ANSWER_GENERATION_STRICT_SYSTEM else ANSWER_GENERATION_SYSTEM
      let tokens := (o.llmChunks prompt system).map SSEvent.token
      if answerAdmitsIgnorance gen.answer then
        let reasons2 := reasons ++ [ReasonCode.LOW_GROUNDEDNESS]
        let response :=
          if s.rq_proceed_threshold ≤ rq then buildClarifyResponse gen rq reasons2
          else buildAbstainResponse reasons2
        tokens ++ [.metadata response, .done]
      else
        let (verification, confidence) := verifyStep o s req.mode normalized cands rq gen.answer
        tokens ++ [.metadata (buildStreamMetadata gen verification confidence reasons), .done]

/-- The payload of the first metadata event of a stream (execute_stream always
yields exactly one). -/
def streamMetadata (events : List SSEvent) : Option QueryResponse :=
  events.findSome? fun e =>
    match e with
    | .metadata r => some r
    | _ => none

/- ============ spec-side definitions (for refinement comparisons) ============ -/

/-- Written from the spec's words: clamp(x, lo, hi) as used in the confidence
invariant `confidence = clamp(alpha*rq + beta*g - gamma*c, 0, 1)`. -/
def specClamp (x lo hi : ℚ) : ℚ := max lo (min hi x)

/-- Written from the spec's words: the citations are the evidence chunks
whose 1-based position n occurs as a bracketed marker [n] in the answer, in
increasing position order, each position at most once, positions outside the
evidence list ignored. -/
def specCitedChunks (answer : String) (evidence : List RetrievalCandidate) :
    List Chunk :=
  ((List.range' 1 evidence.length).filter fun n => n ∈ findMarkers answer).filterMap
    fun idx => (evidence.get? (idx - 1)).map (·.chunk)

/-- The fused score the RRF dictionary assigns to a chunk id (0 when the id
never occurs). -/
def rrfLookup (l : List (String × ℚ)) (cid : String) : ℚ :=
  (l.lookup cid).getD 0

/-- The total RRF contribution of one ranked input list to a chunk id, when
enumeration starts at the given rank. -/
def rrfContrib (k : ℕ) (cid : String) : ℕ → List (String × ℚ) → ℚ
  | _, [] => 0
  | rank, (c, _) :: rest =>
      (if c = cid then 1 / ((k : ℚ) + rank + 1) else 0) + rrfContrib k cid (rank + 1) rest

/- ============ concrete example inputs ============ -/

/-- A tiny chunk used in concrete counterexample runs. -/
def exChunk (n : ℕ) : Chunk :=
  { chunk_id := "c" ++ toString n, doc_id := "d" ++ toString n,
    text := "t" ++ toString n, index := n, token_count := 1 }

/-- A retrieval candidate wrapping exChunk with a given score. -/
def exCand (n : ℕ) (score : ℚ) : RetrievalCandidate :=
  { chunk := exChunk n, score := score, source_method := "hybrid" }

/-- An eleven-candidate evidence list: long enough that the numbered evidence
block passed to the generator (at most 10 chunks) omits position 11. -/
def exEleven : List RetrievalCandidate :=
  (List.range' 1 11).map fun n => exCand n 1

/-- Collaborator behaviour that drives QueryPipeline.execute onto the
verifier-abstain path: retrieval quality 0.8, a citing answer with no refusal
phrase, groundedness 0, contradiction 0. -/
def exCollabVerifierAbstain : Collab where
  quNormalize := fun q => q
  decompose := fun q => { original := q, sub_questions := [q], synthesis_instruction := "" }
  retrieve := fun _ _ _ => [exCand 1 1]
  rerank := fun _ cands _ => cands
  rqScore := fun _ => (0.8, [])
  llmRewriteStructured := fun _ => none
  llmRewriteManual := fun _ => none
  llmChunks := fun _ _ => ["Fact [1]."]
  groundedness := fun _ _ _ => 0
  contradiction := fun _ _ => 0
  selfConsistency := fun _ _ _ => 1
  scTimeLeft := false

/-- Collaborator behaviour that drives QueryPipeline.execute onto the
verifier-warn (clarify) path: retrieval quality 0.8, groundedness 0.6,
contradiction 0. -/
def exCollabVerifierWarn : Collab :=
  { exCollabVerifierAbstain with groundedness := fun _ _ _ => 0.6 }

/-- Collaborator behaviour for the self-admitted-ignorance clarify path with
retrieval quality 0.55511, chosen so that rq * 0.5 is not representable in 4
decimal places. -/
def exCollabIgnorance : Collab :=
  { exCollabVerifierAbstain with
    rqScore := fun _ => (0.55511, [])
    llmChunks := fun _ _ => ["The documents do not contain information about this. [1]"] }

/-- The request used by the concrete counterexample runs. -/
def exRequest : QueryRequest := { query := "q", mode := "normal" }

/-- Collaborator behaviour whose retrieval quality 0.1 falls below the
fallback threshold, driving the RQ gate to an immediate abstain. -/
def exCollabLowRq : Collab :=
  { exCollabVerifierAbstain with rqScore := fun _ => (0.1, [ReasonCode.LOW_RELEVANCE]) }

/-- Structural invariant of the FAISS id mapping: the two dictionaries are
pointwise mirrored, the assigned integer ids enumerate 0..next_id-1 in
insertion order, and the chunk ids are pairwise distinct. -/
def FAISSVectorStore.WellFormed (s : FAISSVectorStore) : Prop :=
  s.id_to_chunk_id = s.chunk_id_to_int.map (fun p => (p.2, p.1)) ∧
  s.chunk_id_to_int.map Prod.snd = List.range s.next_id ∧
  (s.chunk_id_to_int.map Prod.fst).Nodup

/- ============ theorems ============ -/

/-- C4: VerificationDecisionMaker.decide returns pass iff groundedness is at
least the mode's pass threshold (0.70 normal, 0.85 strict) and
contradiction_rate is at most the mode's pass threshold (0.20 normal, 0.10
strict); otherwise warn iff groundedness ≥ 0.50 and contradiction_rate ≤
0.40; otherwise abstain. -/
theorem decide_pass_warn_abstain (g c : ℚ) (sc : Option ℚ) (mode : String) :
    ((VerificationDecisionMaker.decide defaultSettings g c sc mode).decision = "pass" ↔
      ((if mode = "strict" then (0.85 : ℚ) else 0.7) ≤ g ∧
        c ≤ (if mode = "strict" then (0.1 : ℚ) else 0.2))) ∧
    ((VerificationDecisionMaker.decide defaultSettings g c sc mode).decision = "warn" ↔
      (¬((if mode = "strict" then (0.85 : ℚ) else 0.7) ≤ g ∧
          c ≤ (if mode = "strict" then (0.1 : ℚ) else 0.2)) ∧
        (0.5 : ℚ) ≤ g ∧ c ≤ (0.4 : ℚ))) ∧
    ((VerificationDecisionMaker.decide defaultSettings g c sc mode).decision = "abstain" ↔
      (¬((if mode = "strict" then (0.85 : ℚ) else 0.7) ≤ g ∧
          c ≤ (if mode = "strict" then (0.1 : ℚ) else 0.2)) ∧
        ¬((0.5 : ℚ) ≤ g ∧ c ≤ (0.4 : ℚ)))) := by
  have hpw : ("pass" : String) ≠ "warn" := by decide
  have hpa : ("pass" : String) ≠ "abstain" := by decide
  have hwa : ("warn" : String) ≠ "abstain" := by decide
  simp only [VerificationDecisionMaker.decide, defaultSettings]
  by_cases hm : mode = "strict" <;>
    simp only [hm, if_true, if_false, reduceIte] <;>
    split_ifs with h1 h2 <;>
    simp_all

/-- C7: under the default weights the confidence scorer returns exactly
clamp(0.50*rq + 0.35*groundedness - 0.15*contradiction_rate, 0, 1), and the
returned confidence always lies in [0,1]. -/
theorem confidence_score_clamped (rq g c : ℚ) :
    ConfidenceScorer.score defaultSettings rq g c =
      specClamp (0.50 * rq + 0.35 * g - 0.15 * c) 0 1 ∧
    0 ≤ ConfidenceScorer.score defaultSettings rq g c ∧
    ConfidenceScorer.score defaultSettings rq g c ≤ 1 := by
  refine ⟨rfl, le_max_left 0 _, ?_⟩
  simp only [ConfidenceScorer.score]
  exact max_le (by norm_num) (min_le_left 1 _)

/-- C8 counterexample: the RQ scorer is not total.  With two candidates both
scored -1e-8 the mean of the top scores is exactly -1e-8, the consistency
denominator mean + 1e-8 is zero, and score raises ZeroDivisionError (embedded
as none). -/
theorem rq_score_zero_division :
    RetrievalQualityScorer.score defaultSettings
      [exCand 1 (-rqEps), exCand 2 (-rqEps)] = none := by
  have hcons : rqConsistency ([exCand 1 (-rqEps), exCand 2 (-rqEps)].map (·.score)) = none := by
    simp only [rqConsistency, exCand, List.map_cons, List.map_nil, List.take,
      List.length_cons, List.length_nil, List.sum_cons, List.sum_nil]
    norm_num [rqEps]
  simp only [RetrievalQualityScorer.score]
  rw [show ([exCand 1 (-rqEps), exCand 2 (-rqEps)].map (·.score)) =
    [(exCand 1 (-rqEps)).score, (exCand 2 (-rqEps)).score] by simp] at hcons
  simp [hcons]

/-- Membership in an if-guarded singleton prepended by append, used to reason
about the reason-code lists the scorers build. -/
theorem mem_ite_singleton_append {α : Type} (a x : α) (p : Prop) [Decidable p]
    (l : List α) : a ∈ (if p then [x] else []) ++ l ↔ (p ∧ a = x) ∨ a ∈ l := by
  split_ifs with hp <;> simp [hp]

/-- Membership in an if-guarded singleton. -/
theorem mem_ite_singleton {α : Type} (a x : α) (p : Prop) [Decidable p] :
    a ∈ (if p then [x] else []) ↔ p ∧ a = x := by
  split_ifs with hp <;> simp [hp]

/-- C8 (amended): except when at least two candidates are present and the mean
of the top-5 scores is exactly -1e-8 (where Python raises ZeroDivisionError),
RetrievalQualityScorer.score returns a result; the rq lies in [0,1], empty
input yields 0.0 with exactly NO_RESULTS, and LOW_RELEVANCE, LOW_MARGIN,
LOW_COVERAGE, LOW_CONSISTENCY are emitted iff the corresponding component is
below 0.4, 0.1, 0.3, 0.3. -/
theorem rq_score_total_and_codes (cs : List RetrievalCandidate)
    (h : rqConsistency (cs.map (·.score)) ≠ none) :
    ∃ rq codes, RetrievalQualityScorer.score defaultSettings cs = some (rq, codes) ∧
      0 ≤ rq ∧ rq ≤ 1 ∧
      (ReasonCode.NO_RESULTS ∈ codes ↔ cs = []) ∧
      (cs = [] → rq = 0 ∧ codes = [ReasonCode.NO_RESULTS]) ∧
      ∀ c0 rest, cs = c0 :: rest →
        ∃ consistency, rqConsistency (cs.map (·.score)) = some consistency ∧
          (ReasonCode.LOW_RELEVANCE ∈ codes ↔ rqRelevance c0.score < 0.4) ∧
          (ReasonCode.LOW_MARGIN ∈ codes ↔ rqMargin c0.score (rest.map (·.score)) < 0.1) ∧
          (ReasonCode.LOW_COVERAGE ∈ codes ↔ rqCoverage cs < 0.3) ∧
          (ReasonCode.LOW_CONSISTENCY ∈ codes ↔ consistency < 0.3) := by
  have e1 : ReasonCode.NO_RESULTS ≠ ReasonCode.LOW_RELEVANCE := by decide
  have e2 : ReasonCode.NO_RESULTS ≠ ReasonCode.LOW_MARGIN := by decide
  have e3 : ReasonCode.NO_RESULTS ≠ ReasonCode.LOW_COVERAGE := by decide
  have e4 : ReasonCode.NO_RESULTS ≠ ReasonCode.LOW_CONSISTENCY := by decide
  have e5 : ReasonCode.LOW_RELEVANCE ≠ ReasonCode.LOW_MARGIN := by decide
  have e6 : ReasonCode.LOW_RELEVANCE ≠ ReasonCode.LOW_COVERAGE := by decide
  have e7 : ReasonCode.LOW_RELEVANCE ≠ ReasonCode.LOW_CONSISTENCY := by decide
  have e8 : ReasonCode.LOW_MARGIN ≠ ReasonCode.LOW_COVERAGE := by decide
  have e9 : ReasonCode.LOW_MARGIN ≠ ReasonCode.LOW_CONSISTENCY := by decide
  have e10 : ReasonCode.LOW_COVERAGE ≠ ReasonCode.LOW_CONSISTENCY := by decide
  match cs with
  | [] =>
      refine ⟨0, [ReasonCode.NO_RESULTS], rfl, le_refl 0, by norm_num, by simp, ?_, ?_⟩
      · exact fun _ => ⟨rfl, rfl⟩
      · intro c0 rest hcontra
        exact absurd hcontra (by simp)
  | c0 :: rest =>
      obtain ⟨consistency, hcons0⟩ := Option.ne_none_iff_exists.mp h
      have hmap : ((c0 :: rest).map (·.score)) = c0.score :: rest.map (·.score) := by simp
      have hcons : rqConsistency (c0.score :: rest.map (·.score)) = some consistency := by
        rw [← hmap]; exact hcons0.symm
      simp only [RetrievalQualityScorer.score, hmap, hcons]
      refine ⟨_, _, rfl, le_max_left 0 _, max_le (by norm_num) (min_le_left 1 _), ?_, ?_, ?_⟩
      · simp [mem_ite_singleton_append, mem_ite_singleton, e1, e2, e3, e4,
          e1.symm, e2.symm, e3.symm, e4.symm]
      · intro hcontra
        exact absurd hcontra (by simp)
      · intro c0' rest' heq
        have hc : c0' = c0 := by injection heq.symm
        have hr : rest' = rest := by injection heq.symm
        subst hc
        subst hr
        refine ⟨consistency, rfl, ?_, ?_, ?_, ?_⟩ <;>
          simp [mem_ite_singleton_append, mem_ite_singleton, e5, e6, e7, e8, e9, e10,
            e5.symm, e6.symm, e7.symm, e8.symm, e9.symm, e10.symm]

/-- C8 witness: the amended totality theorem applied to a concrete
single-candidate list, whose consistency component cannot divide by zero. -/
theorem rq_score_total_and_codes_witness :
    ∃ rq codes, RetrievalQualityScorer.score defaultSettings [exCand 1 1] = some (rq, codes) ∧
      0 ≤ rq ∧ rq ≤ 1 := by
  have h : rqConsistency ([exCand 1 1].map (·.score)) ≠ none := by
    simp [rqConsistency, exCand]
  obtain ⟨rq, codes, heq, h0, h1, -⟩ := rq_score_total_and_codes [exCand 1 1] h
  exact ⟨rq, codes, heq, h0, h1⟩

/-- Association-list lookup on a cons cell, in if form. -/
theorem lookup_cons_ite {α β : Type} [BEq α] (k : α) (b : β) (es : List (α × β))
    (a : α) :
    ((k, b) :: es).lookup a = if a == k then some b else es.lookup a := by
  rw [List.lookup_cons]
  cases h : a == k <;> simp [h]

/-- A key whose lookup fails is not among the stored keys. -/
theorem not_mem_keys_of_lookup_none {α β : Type} [BEq α] [LawfulBEq α]
    {l : List (α × β)} {a : α} (h : l.lookup a = none) : a ∉ l.map Prod.fst := by
  induction l with
  | nil => simp
  | cons p t ih =>
      obtain ⟨k, v⟩ := p
      rw [lookup_cons_ite] at h
      by_cases hak : a = k
      · simp [hak] at h
      · simp only [beq_iff_eq, hak, if_false] at h
        simp [hak, ih h]

/-- A successful lookup's value is among the stored values. -/
theorem mem_values_of_lookup_some {α β : Type} [BEq α] [LawfulBEq α]
    {l : List (α × β)} {a : α} {v : β} (h : l.lookup a = some v) :
    v ∈ l.map Prod.snd := by
  induction l with
  | nil => simp at h
  | cons p t ih =>
      obtain ⟨k, w⟩ := p
      rw [lookup_cons_ite] at h
      by_cases hak : a = k
      · simp [hak] at h
        simp [h]
      · simp only [beq_iff_eq, hak, if_false] at h
        simp [ih h]

/-- A successful lookup's key is among the stored keys. -/
theorem mem_keys_of_lookup_some {α β : Type} [BEq α] [LawfulBEq α]
    {l : List (α × β)} {a : α} {v : β} (h : l.lookup a = some v) :
    a ∈ l.map Prod.fst := by
  induction l with
  | nil => simp at h
  | cons p t ih =>
      obtain ⟨k, w⟩ := p
      rw [lookup_cons_ite] at h
      by_cases hak : a = k
      · simp [hak]
      · simp only [beq_iff_eq, hak, if_false] at h
        simp [ih h]

/-- On an association list with distinct keys and distinct values, looking up
a value in the mirrored list inverts looking up its key. -/
theorem lookup_map_swap {α β : Type} [BEq α] [LawfulBEq α] [BEq β] [LawfulBEq β]
    (l : List (α × β)) (hf : (l.map Prod.fst).Nodup) (hs : (l.map Prod.snd).Nodup)
    (i : β) (c : α) :
    ((l.map fun p => (p.2, p.1)).lookup i = some c) ↔ l.lookup c = some i := by
  induction l with
  | nil => simp
  | cons p t ih =>
      obtain ⟨a, b⟩ := p
      simp only [List.map_cons] at hf hs ⊢
      rw [lookup_cons_ite, lookup_cons_ite]
      have hf1 : a ∉ t.map Prod.fst := (List.nodup_cons.mp hf).1
      have hf2 : (t.map Prod.fst).Nodup := (List.nodup_cons.mp hf).2
      have hs1 : b ∉ t.map Prod.snd := (List.nodup_cons.mp hs).1
      have hs2 : (t.map Prod.snd).Nodup := (List.nodup_cons.mp hs).2
      by_cases hib : i = b <;> by_cases hca : c = a
      · simp [hib, hca]
      · subst hib
        simp only [beq_self_eq_true, if_true, beq_iff_eq, hca, if_false]
        constructor
        · intro hcontra
          exact absurd (Option.some.inj hcontra).symm hca
        · intro hcontra
          exact absurd (mem_values_of_lookup_some hcontra) hs1
      · subst hca
        simp only [beq_iff_eq, hib, if_false, beq_self_eq_true, if_true]
        constructor
        · intro hcontra
          exact absurd (mem_keys_of_lookup_some ((ih hf2 hs2).mp hcontra)) hf1
        · intro hcontra
          exact absurd (Option.some.inj hcontra).symm hib
      · simp only [beq_iff_eq, hib, hca, if_false]
        exact ih hf2 hs2

/-- FAISSVectorStore.assignOne preserves the id-mapping invariant. -/
theorem wellFormed_assignOne {s : FAISSVectorStore} (wf : s.WellFormed) (cid : String) :
    (s.assignOne cid).2.WellFormed := by
  obtain ⟨w1, w2, w3⟩ := wf
  simp only [FAISSVectorStore.assignOne]
  cases hl : s.chunk_id_to_int.lookup cid with
  | some i => exact ⟨w1, w2, w3⟩
  | none =>
      refine ⟨?_, ?_, ?_⟩
      · simp [w1]
      · simp [w2, List.range_succ]
      · simp only [List.map_append]
        rw [List.nodup_append]
        exact ⟨w3, List.nodup_singleton cid,
          by simpa using not_mem_keys_of_lookup_none hl⟩

/-- FAISSVectorStore.assign_int_ids preserves the id-mapping invariant. -/
theorem wellFormed_assign_int_ids (cids : List String) :
    ∀ s : FAISSVectorStore, s.WellFormed → (s.assign_int_ids cids).2.WellFormed := by
  induction cids with
  | nil => intro s wf; exact wf
  | cons cid rest ih =>
      intro s wf
      simp only [FAISSVectorStore.assign_int_ids]
      exact ih _ (wellFormed_assignOne wf cid)

/-- FAISSVectorStore.add preserves the id-mapping invariant. -/
theorem wellFormed_add {s : FAISSVectorStore} (wf : s.WellFormed) (cids : List String) :
    (s.add cids).WellFormed := by
  simp only [FAISSVectorStore.add]
  split_ifs with h
  · exact wf
  · exact wellFormed_assign_int_ids cids s wf

/-- Every reachable FAISSVectorStore state satisfies the id-mapping
invariant. -/
theorem wellFormed_addAll (ops : List (List String)) :
    (FAISSVectorStore.addAll ops).WellFormed := by
  have base : FAISSVectorStore.init.WellFormed := ⟨rfl, rfl, List.nodup_nil⟩
  rw [FAISSVectorStore.addAll]
  induction ops using List.reverseRecOn with
  | nil => exact base
  | append_singleton front cids ih =>
      rw [List.foldl_append, List.foldl_cons, List.foldl_nil]
      exact wellFormed_add ih cids

/-- C10: across any sequence of add operations from a fresh store, the two id
maps of FAISSVectorStore are mutually inverse, every assigned integer id is
unique and less than next_id, re-adding a known chunk id reuses its existing
integer id leaving the state unchanged, and search only returns chunk ids
present in the id mapping. -/
theorem faiss_store_invariants (ops : List (List String)) :
    (∀ i c, (FAISSVectorStore.addAll ops).id_to_chunk_id.lookup i = some c ↔
        (FAISSVectorStore.addAll ops).chunk_id_to_int.lookup c = some i) ∧
    ((FAISSVectorStore.addAll ops).chunk_id_to_int.map Prod.snd).Nodup ∧
    (∀ c i, (FAISSVectorStore.addAll ops).chunk_id_to_int.lookup c = some i →
        i < (FAISSVectorStore.addAll ops).next_id) ∧
    (∀ c i, (FAISSVectorStore.addAll ops).chunk_id_to_int.lookup c = some i →
        (FAISSVectorStore.addAll ops).assignOne c = (i, FAISSVectorStore.addAll ops)) ∧
    (∀ backend cid sc, (cid, sc) ∈ (FAISSVectorStore.addAll ops).search backend →
        ∃ i, (FAISSVectorStore.addAll ops).id_to_chunk_id.lookup i = some cid) := by
  obtain ⟨w1, w2, w3⟩ := wellFormed_addAll ops
  have hsnd : ((FAISSVectorStore.addAll ops).chunk_id_to_int.map Prod.snd).Nodup := by
    rw [w2]; exact List.nodup_range _
  refine ⟨?_, hsnd, ?_, ?_, ?_⟩
  · intro i c
    rw [w1]
    exact lookup_map_swap _ w3 hsnd i c
  · intro c i hl
    have : i ∈ (FAISSVectorStore.addAll ops).chunk_id_to_int.map Prod.snd :=
      mem_values_of_lookup_some hl
    rw [w2] at this
    exact List.mem_range.mp this
  · intro c i hl
    simp [FAISSVectorStore.assignOne, hl]
  · intro backend cid sc hmem
    simp only [FAISSVectorStore.search, List.mem_filterMap] at hmem
    obtain ⟨⟨idx, score⟩, _, hf⟩ := hmem
    by_cases h1 : idx = -1
    · simp [h1] at hf
    · simp only [h1, if_false] at hf
      cases hl : (if 0 ≤ idx then
          (FAISSVectorStore.addAll ops).id_to_chunk_id.lookup idx.toNat else none) with
      | none => rw [hl] at hf; simp at hf
      | some cid' =>
          rw [hl] at hf
          by_cases h2 : cid' = ""
          · simp [h2] at hf
          · simp only [h2, if_false, Option.some.injEq, Prod.mk.injEq] at hf
            by_cases h3 : 0 ≤ idx
            · rw [if_pos h3] at hl
              exact ⟨idx.toNat, by rw [hl, hf.1]⟩
            · rw [if_neg h3] at hl
              exact absurd hl (by simp)

/-- C10 witness: the invariants applied to the concrete history that adds
chunk ids a, b and then re-adds a; a keeps integer id 0 and re-assigning it
leaves the state unchanged. -/
theorem faiss_store_invariants_witness :
    (FAISSVectorStore.addAll [["a", "b"], ["a"]]).chunk_id_to_int.lookup "a" = some 0 ∧
    (FAISSVectorStore.addAll [["a", "b"], ["a"]]).assignOne "a" =
      (0, FAISSVectorStore.addAll [["a", "b"], ["a"]]) := by
  have hl : (FAISSVectorStore.addAll [["a", "b"], ["a"]]).chunk_id_to_int.lookup "a" =
      some 0 := by
    simp [FAISSVectorStore.addAll, FAISSVectorStore.add, FAISSVectorStore.init,
      FAISSVectorStore.assign_int_ids, FAISSVectorStore.assignOne, lookup_cons_ite]
  exact ⟨hl, (faiss_store_invariants [["a", "b"], ["a"]]).2.2.2.1 "a" 0 hl⟩

/-- The fused score after one dictionary bump: the bumped id gains v, every
other id is unchanged. -/
theorem rrfLookup_bump (acc : List (String × ℚ)) (c : String) (v : ℚ) (x : String) :
    rrfLookup (rrfBump acc c v) x = rrfLookup acc x + (if x = c then v else 0) := by
  induction acc with
  | nil =>
      by_cases hxc : x = c <;>
        simp [rrfBump, rrfLookup, lookup_cons_ite, hxc]
  | cons p t ih =>
      obtain ⟨a, s⟩ := p
      by_cases hac : a = c
      · subst hac
        by_cases hxa : x = a <;>
          simp [rrfBump, rrfLookup, lookup_cons_ite, hxa]
      · have hbump : rrfBump ((a, s) :: t) c v = (a, s) :: rrfBump t c v := by
          simp [rrfBump, hac]
        by_cases hxa : x = a
        · subst hxa
          simp [hbump, rrfLookup, lookup_cons_ite, hac]
        · rw [hbump]
          simp only [rrfLookup, lookup_cons_ite, beq_iff_eq, hxa, if_false] at ih ⊢
          exact ih

/-- Keys after a bump: an existing key set is unchanged, a new key is
appended. -/
theorem keys_bump (acc : List (String × ℚ)) (c : String) (v : ℚ) (x : String) :
    (x ∈ (rrfBump acc c v).map Prod.fst ↔ x ∈ acc.map Prod.fst ∨ x = c) := by
  induction acc with
  | nil => simp [rrfBump]
  | cons p t ih =>
      obtain ⟨a, s⟩ := p
      by_cases hac : a = c <;> simp [rrfBump, hac, ih] <;> tauto

/-- A bump keeps the dictionary keys distinct. -/
theorem nodup_keys_bump (acc : List (String × ℚ)) (c : String) (v : ℚ)
    (h : (acc.map Prod.fst).Nodup) : ((rrfBump acc c v).map Prod.fst).Nodup := by
  induction acc with
  | nil => simp [rrfBump]
  | cons p t ih =>
      obtain ⟨a, s⟩ := p
      simp only [List.map_cons, List.nodup_cons] at h
      by_cases hac : a = c
      · simp only [rrfBump, hac, if_true, List.map_cons, List.nodup_cons]
        exact ⟨by simpa [hac] using h.1, h.2⟩
      · simp only [rrfBump, hac, if_false, List.map_cons, List.nodup_cons]
        refine ⟨?_, ih h.2⟩
        rw [keys_bump]
        rintro (hmem | rfl)
        · exact h.1 hmem
        · exact hac rfl

/-- The fused score after accumulating one ranked list equals the previous
score plus that list's total contribution. -/
theorem rrfLookup_addList (k : ℕ) (l : List (String × ℚ)) :
    ∀ (acc : List (String × ℚ)) (rank : ℕ) (x : String),
      rrfLookup (rrfAddList k acc rank l) x = rrfLookup acc x + rrfContrib k x rank l := by
  induction l with
  | nil => intro acc rank x; simp [rrfAddList, rrfContrib]
  | cons p rest ih =>
      intro acc rank x
      obtain ⟨c, s⟩ := p
      rw [show rrfAddList k acc rank ((c, s) :: rest) =
        rrfAddList k (rrfBump acc c (1 / (k + rank + 1))) (rank + 1) rest from rfl]
      rw [ih, rrfLookup_bump, rrfContrib]
      by_cases hxc : x = c
      · subst hxc
        simp only [eq_self_iff_true, if_true]
        ring
      · rw [if_neg hxc, if_neg fun h => hxc h.symm]
        ring

/-- Keys after accumulating one ranked list: the union of the previous keys
and the ids occurring in the list. -/
theorem keys_addList (k : ℕ) (l : List (String × ℚ)) :
    ∀ (acc : List (String × ℚ)) (rank : ℕ) (x : String),
      (x ∈ (rrfAddList k acc rank l).map Prod.fst ↔
        x ∈ acc.map Prod.fst ∨ x ∈ l.map Prod.fst) := by
  induction l with
  | nil => intro acc rank x; simp [rrfAddList]
  | cons p rest ih =>
      intro acc rank x
      obtain ⟨c, s⟩ := p
      rw [show rrfAddList k acc rank ((c, s) :: rest) =
        rrfAddList k (rrfBump acc c (1 / (k + rank + 1))) (rank + 1) rest from rfl]
      rw [ih, keys_bump]
      simp
      tauto

/-- Accumulating a ranked list keeps the dictionary keys distinct. -/
theorem nodup_keys_addList (k : ℕ) (l : List (String × ℚ)) :
    ∀ (acc : List (String × ℚ)) (rank : ℕ), (acc.map Prod.fst).Nodup →
      ((rrfAddList k acc rank l).map Prod.fst).Nodup := by
  induction l with
  | nil => intro acc rank h; exact h
  | cons p rest ih =>
      intro acc rank h
      obtain ⟨c, s⟩ := p
      rw [show rrfAddList k acc rank ((c, s) :: rest) =
        rrfAddList k (rrfBump acc c (1 / (k + rank + 1))) (rank + 1) rest from rfl]
      exact ih _ _ (nodup_keys_bump acc c _ h)

/-- The fused score of a chunk id is the sum over the input lists of their
contributions, independent of dictionary state threading. -/
theorem rrfLookup_scores (result_lists : List (List (String × ℚ))) (k : ℕ) (x : String) :
    rrfLookup (rrfScores result_lists k) x =
      (result_lists.map fun l => rrfContrib k x 0 l).sum := by
  rw [rrfScores]
  have main : ∀ (ls : List (List (String × ℚ))) (acc : List (String × ℚ)),
      rrfLookup (ls.foldl (fun acc l => rrfAddList k acc 0 l) acc) x =
        rrfLookup acc x + (ls.map fun l => rrfContrib k x 0 l).sum := by
    intro ls
    induction ls with
    | nil => intro acc; simp
    | cons l rest ih =>
        intro acc
        rw [List.foldl_cons, ih, rrfLookup_addList]
        simp [add_assoc]
  rw [main]
  simp [rrfLookup]

/-- Key membership in the fused-score dictionary: the ids occurring in some
input list. -/
theorem keys_scores (result_lists : List (List (String × ℚ))) (k : ℕ) (x : String) :
    (x ∈ (rrfScores result_lists k).map Prod.fst ↔
      ∃ l ∈ result_lists, x ∈ l.map Prod.fst) := by
  rw [rrfScores]
  have main : ∀ (ls : List (List (String × ℚ))) (acc : List (String × ℚ)),
      (x ∈ (ls.foldl (fun acc l => rrfAddList k acc 0 l) acc).map Prod.fst ↔
        x ∈ acc.map Prod.fst ∨ ∃ l ∈ ls, x ∈ l.map Prod.fst) := by
    intro ls
    induction ls with
    | nil => intro acc; simp
    | cons l rest ih =>
        intro acc
        rw [List.foldl_cons, ih, keys_addList]
        simp
        tauto
  rw [main]
  simp

/-- The fused-score dictionary has distinct keys. -/
theorem nodup_keys_scores (result_lists : List (List (String × ℚ))) (k : ℕ) :
    ((rrfScores result_lists k).map Prod.fst).Nodup := by
  rw [rrfScores]
  have main : ∀ (ls : List (List (String × ℚ))) (acc : List (String × ℚ)),
      (acc.map Prod.fst).Nodup →
        ((ls.foldl (fun acc l => rrfAddList k acc 0 l) acc).map Prod.fst).Nodup := by
    intro ls
    induction ls with
    | nil => intro acc h; exact h
    | cons l rest ih =>
        intro acc h
        rw [List.foldl_cons]
        exact ih _ (nodup_keys_addList k l acc 0 h)
  exact main result_lists [] (by simp)

/-- An absent key looks up to none. -/
theorem lookup_eq_none_of_not_mem_keys {α β : Type} [BEq α] [LawfulBEq α]
    {l : List (α × β)} {a : α} (h : a ∉ l.map Prod.fst) : l.lookup a = none := by
  induction l with
  | nil => rfl
  | cons p t ih =>
      obtain ⟨k, v⟩ := p
      simp only [List.map_cons, List.mem_cons] at h
      push_neg at h
      rw [lookup_cons_ite]
      simp only [beq_iff_eq, h.1, if_false]
      exact ih h.2

/-- On a distinct-key association list, a successful lookup pins down list
membership of the pair. -/
theorem lookup_eq_some_iff_mem {α β : Type} [BEq α] [LawfulBEq α]
    {l : List (α × β)} (hnd : (l.map Prod.fst).Nodup) (a : α) (v : β) :
    l.lookup a = some v ↔ (a, v) ∈ l := by
  induction l with
  | nil => simp
  | cons p t ih =>
      obtain ⟨k, w⟩ := p
      simp only [List.map_cons, List.nodup_cons] at hnd
      rw [lookup_cons_ite]
      by_cases hak : a = k
      · subst hak
        simp only [beq_self_eq_true, if_true, Option.some.injEq, List.mem_cons,
          Prod.mk.injEq, true_and]
        constructor
        · intro hv; exact Or.inl hv.symm
        · rintro (rfl | hmem)
          · rfl
          · exact absurd (List.mem_map_of_mem Prod.fst hmem) hnd.1
      · simp only [beq_iff_eq, hak, if_false, List.mem_cons, Prod.mk.injEq]
        rw [ih hnd.2]
        constructor
        · exact Or.inr
        · rintro (⟨hfalse, -⟩ | hmem)
          · exact hfalse.elim
          · exact hmem

/-- Distinct-key association lists with identical lookups are permutations of
each other. -/
theorem assoc_perm_of_lookup_eq {α β : Type} [BEq α] [LawfulBEq α]
    {l₁ l₂ : List (α × β)} (h1 : (l₁.map Prod.fst).Nodup) (h2 : (l₂.map Prod.fst).Nodup)
    (h : ∀ a, l₁.lookup a = l₂.lookup a) : l₁.Perm l₂ := by
  rw [List.perm_ext_iff_of_nodup (List.Nodup.of_map _ h1) (List.Nodup.of_map _ h2)]
  intro ⟨a, v⟩
  rw [← lookup_eq_some_iff_mem h1, ← lookup_eq_some_iff_mem h2, h a]

/-- Two lists sorted by weakly decreasing score and agreeing as multisets are
equal when no score repeats. -/
theorem eq_of_perm_sorted_ge_nodup :
    ∀ (l₁ l₂ : List (String × ℚ)), l₁.Perm l₂ →
      l₁.Sorted (fun a b : String × ℚ => a.2 ≥ b.2) →
      l₂.Sorted (fun a b : String × ℚ => a.2 ≥ b.2) →
      (l₁.map Prod.snd).Nodup → l₁ = l₂
  | [], l₂, hp, _, _, _ => by simpa using hp.nil_eq
  | a :: t₁, [], hp, _, _, _ => by simpa using hp.symm.nil_eq
  | a :: t₁, b :: t₂, hp, hs₁, hs₂, hnd => by
      have hndc : a.2 ∉ t₁.map Prod.snd ∧ (t₁.map Prod.snd).Nodup := by
        rw [List.map_cons, List.nodup_cons] at hnd
        exact hnd
      have hab : a = b := by
        by_contra hne
        have ha2 : a ∈ b :: t₂ := hp.mem_iff.mp (List.mem_cons_self a t₁)
        have hb1 : b ∈ a :: t₁ := hp.mem_iff.mpr (List.mem_cons_self b t₂)
        have hat2 : a ∈ t₂ := by
          rcases List.mem_cons.mp ha2 with h | h
          · exact absurd h hne
          · exact h
        have hbt1 : b ∈ t₁ := by
          rcases List.mem_cons.mp hb1 with h | h
          · exact absurd h.symm hne
          · exact h
        have hba : b.2 ≥ a.2 := (List.sorted_cons.mp hs₂).1 a hat2
        have hab2 : a.2 ≥ b.2 := (List.sorted_cons.mp hs₁).1 b hbt1
        have heq2 : a.2 = b.2 := le_antisymm hba hab2
        exact hndc.1 (heq2 ▸ List.mem_map_of_mem Prod.snd hbt1)
      subst hab
      have htp : t₁.Perm t₂ := hp.cons_inv
      have := eq_of_perm_sorted_ge_nodup t₁ t₂ htp (List.sorted_cons.mp hs₁).2
        (List.sorted_cons.mp hs₂).2 hndc.2
      rw [this]

/-- C9 counterexample: permuting the input lists does change the fused
ranking when fused scores tie.  With single-item lists for ids a and b, both
ids get fused score 1/61, and the output order follows dictionary insertion
order, which tracks the input-list order. -/
theorem rrf_tie_order_counterexample :
    ([[("b", (1 : ℚ))], [("a", 1)]] : List (List (String × ℚ))).Perm
      [[("a", (1 : ℚ))], [("b", 1)]] ∧
    reciprocal_rank_fusion [[("b", (1 : ℚ))], [("a", 1)]] 60 ≠
      reciprocal_rank_fusion [[("a", (1 : ℚ))], [("b", 1)]] 60 := by
  have hab : ("a" : String) ≠ "b" := by decide
  have h1 : rrfScores [[("a", (1 : ℚ))], [("b", 1)]] 60 = [("a", 1/61), ("b", 1/61)] := by
    simp [rrfScores, rrfAddList, rrfBump, hab, Ne.symm hab]
    norm_num
  have h2 : rrfScores [[("b", (1 : ℚ))], [("a", 1)]] 60 = [("b", 1/61), ("a", 1/61)] := by
    simp [rrfScores, rrfAddList, rrfBump, hab, Ne.symm hab]
    norm_num
  refine ⟨List.Perm.swap _ _ _, ?_⟩
  rw [reciprocal_rank_fusion, reciprocal_rank_fusion, h1, h2]
  simp [List.insertionSort, List.orderedInsert, hab, Ne.symm hab]

/-- C9 (amended): permuting the input lists preserves every chunk id's fused
score and permutes the fused output; the fused ranking itself is unchanged
whenever no two fused scores tie, but on ties the order follows first-insertion
order, which depends on the input-list order. -/
theorem rrf_perm_scores_and_ranking (L1 L2 : List (List (String × ℚ))) (k : ℕ)
    (hperm : L1.Perm L2) :
    (∀ cid, rrfLookup (rrfScores L1 k) cid = rrfLookup (rrfScores L2 k) cid) ∧
    (reciprocal_rank_fusion L1 k).Perm (reciprocal_rank_fusion L2 k) ∧
    (((rrfScores L1 k).map Prod.snd).Nodup →
      reciprocal_rank_fusion L1 k = reciprocal_rank_fusion L2 k) := by
  haveI htotal : IsTotal (String × ℚ) (fun a b : String × ℚ => a.2 ≥ b.2) :=
    ⟨fun a b => le_total b.2 a.2⟩
  haveI htrans : IsTrans (String × ℚ) (fun a b : String × ℚ => a.2 ≥ b.2) :=
    ⟨fun _ _ _ h1 h2 => le_trans h2 h1⟩
  have hlook : ∀ cid, rrfLookup (rrfScores L1 k) cid = rrfLookup (rrfScores L2 k) cid := by
    intro cid
    rw [rrfLookup_scores, rrfLookup_scores]
    exact List.Perm.sum_eq (hperm.map _)
  have hnd1 := nodup_keys_scores L1 k
  have hnd2 := nodup_keys_scores L2 k
  have hopt : ∀ cid, (rrfScores L1 k).lookup cid = (rrfScores L2 k).lookup cid := by
    intro cid
    by_cases hm : cid ∈ (rrfScores L1 k).map Prod.fst
    · have hm2 : cid ∈ (rrfScores L2 k).map Prod.fst := by
        rw [keys_scores] at hm ⊢
        obtain ⟨l, hl, hx⟩ := hm
        exact ⟨l, hperm.mem_iff.mp hl, hx⟩
      cases e1 : (rrfScores L1 k).lookup cid with
      | none => exact absurd hm (not_mem_keys_of_lookup_none e1)
      | some v1 =>
          cases e2 : (rrfScores L2 k).lookup cid with
          | none => exact absurd hm2 (not_mem_keys_of_lookup_none e2)
          | some v2 =>
              have hv := hlook cid
              rw [rrfLookup, rrfLookup, e1, e2] at hv
              simp only [Option.getD_some] at hv
              rw [hv]
    · have hm2 : cid ∉ (rrfScores L2 k).map Prod.fst := by
        rw [keys_scores] at hm ⊢
        intro ⟨l, hl, hx⟩
        exact hm ⟨l, hperm.mem_iff.mpr hl, hx⟩
      rw [lookup_eq_none_of_not_mem_keys hm, lookup_eq_none_of_not_mem_keys hm2]
  have hpairs : (rrfScores L1 k).Perm (rrfScores L2 k) :=
    assoc_perm_of_lookup_eq hnd1 hnd2 hopt
  have houtperm : (reciprocal_rank_fusion L1 k).Perm (reciprocal_rank_fusion L2 k) := by
    rw [reciprocal_rank_fusion, reciprocal_rank_fusion]
    exact ((List.perm_insertionSort _ _).trans hpairs).trans
      (List.perm_insertionSort _ _).symm
  refine ⟨hlook, houtperm, ?_⟩
  intro hnodup
  have hsortnd : ((reciprocal_rank_fusion L1 k).map Prod.snd).Nodup := by
    have hp : ((reciprocal_rank_fusion L1 k).map Prod.snd).Perm
        ((rrfScores L1 k).map Prod.snd) := by
      rw [reciprocal_rank_fusion]
      exact (List.perm_insertionSort _ _).map _
    exact hp.nodup_iff.mpr hnodup
  exact eq_of_perm_sorted_ge_nodup _ _ houtperm
    (List.sorted_insertionSort _ _) (List.sorted_insertionSort _ _) hsortnd

/-- C9 witness: the amended permutation theorem applied to the concrete
swapped pair of single-item input lists. -/
theorem rrf_perm_scores_and_ranking_witness :
    (reciprocal_rank_fusion [[("b", (1 : ℚ))], [("a", 1)]] 60).Perm
      (reciprocal_rank_fusion [[("a", (1 : ℚ))], [("b", 1)]] 60) :=
  (rrf_perm_scores_and_ranking [[("b", (1 : ℚ))], [("a", 1)]]
    [[("a", (1 : ℚ))], [("b", 1)]] 60 (List.Perm.swap _ _ _)).2.1

/-- Replacing a filterMap by a filter followed by a filterMap when the first
function is none exactly off the filter. -/
theorem filterMap_eq_filter_filterMap {α β : Type} (p : α → Prop) [DecidablePred p]
    (f g : α → Option β) (hnone : ∀ a, ¬ p a → f a = none)
    (heq : ∀ a, p a → f a = g a) (l : List α) :
    l.filterMap f = (l.filter fun a => decide (p a)).filterMap g := by
  induction l with
  | nil => rfl
  | cons a t ih =>
      by_cases hp : p a
      · rw [List.filterMap_cons, List.filter_cons, if_pos (by simpa using hp),
          List.filterMap_cons, ← heq a hp, ih]
      · rw [List.filterMap_cons, List.filter_cons, if_neg (by simpa using hp),
          hnone a hp, ih]

/-- The generator's sorted deduplicated in-range cited indices coincide with
the 1-based evidence positions that occur as markers, in increasing order. -/
theorem citedIndices_filter_eq (answer : String) (len : ℕ) :
    (citedIndices answer).filter (fun idx => decide (1 ≤ idx ∧ idx ≤ len)) =
      (List.range' 1 len).filter fun n => decide (n ∈ findMarkers answer) := by
  haveI : IsTotal ℕ (· ≤ ·) := ⟨le_total⟩
  haveI : IsTrans ℕ (· ≤ ·) := ⟨fun _ _ _ => le_trans⟩
  have hsortL : ((citedIndices answer).filter
      (fun idx => decide (1 ≤ idx ∧ idx ≤ len))).Sorted (· ≤ ·) :=
    (List.sorted_insertionSort _ _).filter _
  have hsortR : ((List.range' 1 len).filter
      (fun n => decide (n ∈ findMarkers answer))).Sorted (· ≤ ·) :=
    ((List.pairwise_lt_range' 1 len 1).imp fun h => le_of_lt h).filter _
  have hndL : ((citedIndices answer).filter
      (fun idx => decide (1 ≤ idx ∧ idx ≤ len))).Nodup := by
    refine List.Nodup.filter _ ?_
    exact (List.perm_insertionSort _ _).nodup_iff.mpr (List.nodup_dedup _)
  have hndR : ((List.range' 1 len).filter
      (fun n => decide (n ∈ findMarkers answer))).Nodup :=
    (List.nodup_range' 1 len).filter _
  have hmem : ∀ n, n ∈ (citedIndices answer).filter
      (fun idx => decide (1 ≤ idx ∧ idx ≤ len)) ↔
      n ∈ (List.range' 1 len).filter fun n => decide (n ∈ findMarkers answer) := by
    intro n
    have hciting : n ∈ citedIndices answer ↔ n ∈ findMarkers answer := by
      rw [citedIndices]
      rw [(List.perm_insertionSort _ _).mem_iff]
      exact List.mem_dedup
    rw [List.mem_filter, List.mem_filter, hciting, List.mem_range'_1]
    simp only [decide_eq_true_eq]
    constructor
    · rintro ⟨hmark, h1, h2⟩
      exact ⟨⟨h1, by omega⟩, hmark⟩
    · rintro ⟨⟨h1, h2⟩, hmark⟩
      exact ⟨hmark, h1, by omega⟩
  exact List.eq_of_perm_of_sorted
    ((List.perm_ext_iff_of_nodup hndL hndR).mpr hmem) hsortL hsortR

/-- The chunks the generator cites are exactly the spec-side citations. -/
theorem citedChunksFor_eq_spec (answer : String) (evidence : List RetrievalCandidate) :
    citedChunksFor answer evidence = specCitedChunks answer evidence := by
  rw [citedChunksFor, specCitedChunks, ← citedIndices_filter_eq answer evidence.length]
  refine filterMap_eq_filter_filterMap _ _ _ ?_ ?_ _
  · intro idx hidx
    push_neg at hidx
    by_cases h1 : 1 ≤ idx
    · have hlen : evidence.length < idx := by
        have := hidx h1
        omega
      simp only [if_pos h1]
      rw [List.get?_eq_none.mpr (by omega)]
      rfl
    · simp [h1]
  · intro idx hidx
    simp [hidx.1]

/-- C3 counterexample: with eleven evidence chunks, the numbered evidence
block passed to the generator holds only ten entries, yet the marker [11] is
accepted and mapped to the eleventh evidence chunk instead of being ignored as
an invalid index. -/
theorem citation_beyond_block_counterexample :
    exEleven.length = 11 ∧
    (evidenceLines 1 (exEleven.take 10)).length = 10 ∧
    citedChunksFor "[11]" exEleven = [exChunk 11] := by
  have hlen : exEleven.length = 11 := by
    rw [exEleven, List.length_map, List.length_range']
  refine ⟨hlen, ?_, ?_⟩
  · have : ∀ (l : List RetrievalCandidate) (st : ℕ),
        (evidenceLines st l).length = l.length := by
      intro l
      induction l with
      | nil => intro st; rfl
      | cons c t ih => intro st; simp [evidenceLines, ih]
    rw [this, List.length_take, hlen]
    omega
  · have hmark : citedIndices "[11]" = [11] := by decide
    rw [citedChunksFor, hmark]
    have hget : exEleven[(10 : ℕ)]? = some (exCand 11 1) := by
      rw [exEleven, List.getElem?_map]
      rw [show (List.range' 1 11)[(10 : ℕ)]? = some 11 by decide]
      rfl
    simp [List.filterMap_cons, hget, exCand]

/-- C3 (amended): the cited chunks of a GenerationResult are exactly the
evidence chunks whose 1-based position n occurs as a bracketed marker [n] in
the answer text, where n ranges over positions of the full evidence list (not
the at-most-10-chunk evidence block), listed in increasing position order with
each position cited at most once; markers outside 1..len(evidence) are
ignored. -/
theorem generate_cited_chunks_spec (llmGen : String → String → String) (query : String)
    (evidence : List RetrievalCandidate) (decomposition : Option DecomposedQuery)
    (mode : String) :
    (AnswerGenerator.generate llmGen query evidence decomposition mode).cited_chunks =
      specCitedChunks
        (AnswerGenerator.generate llmGen query evidence decomposition mode).answer
        evidence := by
  rw [AnswerGenerator.generate.eq_def]
  exact citedChunksFor_eq_spec _ evidence

/-- The best-so-far fold of the fallback rewrite loop returns either its
starting point or one of the rewrite candidate sets, and its quality is an
upper bound of the start and of every rewrite's quality. -/
theorem bestOf_spec (o : Collab) (s : Settings) (q : String) :
    ∀ (rws : List String) (init : List RetrievalCandidate × ℚ × List String),
      (FallbackManager.bestOf o s q init rws = init ∨
        ∃ rw ∈ rws, FallbackManager.bestOf o s q init rws =
          (FallbackManager.rewriteCandidates o s q rw,
            o.rqScore (FallbackManager.rewriteCandidates o s q rw))) ∧
      init.2.1 ≤ (FallbackManager.bestOf o s q init rws).2.1 ∧
      ∀ rw ∈ rws, (o.rqScore (FallbackManager.rewriteCandidates o s q rw)).1 ≤
        (FallbackManager.bestOf o s q init rws).2.1 := by
  intro rws
  induction rws with
  | nil =>
      intro init
      refine ⟨Or.inl rfl, le_refl _, ?_⟩
      intro rw hrw
      exact absurd hrw (List.not_mem_nil rw)
  | cons rw rest ih =>
      intro init
      have hunf : FallbackManager.bestOf o s q init (rw :: rest) =
          FallbackManager.bestOf o s q
            (if init.2.1 < (o.rqScore (FallbackManager.rewriteCandidates o s q rw)).1 then
              (FallbackManager.rewriteCandidates o s q rw,
                o.rqScore (FallbackManager.rewriteCandidates o s q rw))
            else init) rest := by
        rw [FallbackManager.bestOf, FallbackManager.bestOf, List.foldl_cons]
      by_cases hlt : init.2.1 < (o.rqScore (FallbackManager.rewriteCandidates o s q rw)).1
      · rw [hunf, if_pos hlt]
        obtain ⟨hopt, hle, hall⟩ := ih
          (FallbackManager.rewriteCandidates o s q rw,
            o.rqScore (FallbackManager.rewriteCandidates o s q rw))
        refine ⟨?_, le_trans (le_of_lt hlt) hle, ?_⟩
        · rcases hopt with heq | ⟨rw', hrw', heq⟩
          · exact Or.inr ⟨rw, List.mem_cons_self rw rest, heq⟩
          · exact Or.inr ⟨rw', List.mem_cons_of_mem rw hrw', heq⟩
        · intro rw' hrw'
          rcases List.mem_cons.mp hrw' with rfl | hmem
          · exact hle
          · exact hall rw' hmem
      · rw [hunf, if_neg hlt]
        obtain ⟨hopt, hle, hall⟩ := ih init
        refine ⟨?_, hle, ?_⟩
        · rcases hopt with heq | ⟨rw', hrw', heq⟩
          · exact Or.inl heq
          · exact Or.inr ⟨rw', List.mem_cons_of_mem rw hrw', heq⟩
        · intro rw' hrw'
          rcases List.mem_cons.mp hrw' with rfl | hmem
          · exact le_trans (le_of_not_lt hlt) hle
          · exact hall rw' hmem

/-- The branching shape of fallback_retrieve with the RQ pair projected. -/
theorem fallback_retrieve_eq (o : Collab) (s : Settings) (q : String) :
    FallbackManager.fallback_retrieve o s q =
      (if s.rq_proceed_threshold ≤
          (o.rqScore (FallbackManager.expanded_retrieval o s q)).1 then
        { candidates := FallbackManager.expanded_retrieval o s q
          quality_score := (o.rqScore (FallbackManager.expanded_retrieval o s q)).1
          reason_codes := (o.rqScore (FallbackManager.expanded_retrieval o s q)).2
          decision := "proceed" }
      else
        if s.rq_fallback_threshold ≤
            (FallbackManager.bestOf o s q
              (FallbackManager.expanded_retrieval o s q,
                o.rqScore (FallbackManager.expanded_retrieval o s q))
              (FallbackManager.query_rewrite o q)).2.1 then
          { candidates := (FallbackManager.bestOf o s q
              (FallbackManager.expanded_retrieval o s q,
                o.rqScore (FallbackManager.expanded_retrieval o s q))
              (FallbackManager.query_rewrite o q)).1
            quality_score := (FallbackManager.bestOf o s q
              (FallbackManager.expanded_retrieval o s q,
                o.rqScore (FallbackManager.expanded_retrieval o s q))
              (FallbackManager.query_rewrite o q)).2.1
            reason_codes := (FallbackManager.bestOf o s q
              (FallbackManager.expanded_retrieval o s q,
                o.rqScore (FallbackManager.expanded_retrieval o s q))
              (FallbackManager.query_rewrite o q)).2.2
            decision := "proceed" }
        else
          { candidates := (FallbackManager.bestOf o s q
              (FallbackManager.expanded_retrieval o s q,
                o.rqScore (FallbackManager.expanded_retrieval o s q))
              (FallbackManager.query_rewrite o q)).1
            quality_score := (FallbackManager.bestOf o s q
              (FallbackManager.expanded_retrieval o s q,
                o.rqScore (FallbackManager.expanded_retrieval o s q))
              (FallbackManager.query_rewrite o q)).2.1
            reason_codes := (FallbackManager.bestOf o s q
              (FallbackManager.expanded_retrieval o s q,
                o.rqScore (FallbackManager.expanded_retrieval o s q))
              (FallbackManager.query_rewrite o q)).2.2
            decision := "abstain" }) := by
  rw [FallbackManager.fallback_retrieve.eq_def]

/-- C6: the fallback manager first reranks an expanded retrieval (default
K = 100 per side) and returns proceed with those candidates when the rescored
rq reaches the proceed threshold 0.55; otherwise it tries at most 3 LLM
rewrites (empty with no error when both the structured call and the manual
JSON parse fail), keeps the best-RQ candidate set among the expanded retrieval
and the rewrites, and returns proceed iff the best rq is at least the fallback
threshold 0.25, else abstain. -/
theorem fallback_retrieve_spec (o : Collab) (q : String) :
    defaultSettings.retrieval_fallback_expand_k = 100 ∧
    (FallbackManager.query_rewrite o q).length ≤ 3 ∧
    (o.llmRewriteStructured (QUERY_REWRITE_PROMPT q) = none →
      o.llmRewriteManual (QUERY_REWRITE_PROMPT q) = none →
      FallbackManager.query_rewrite o q = []) ∧
    ((0.55 : ℚ) ≤ (o.rqScore (FallbackManager.expanded_retrieval o defaultSettings q)).1 →
      FallbackManager.fallback_retrieve o defaultSettings q =
        { candidates := FallbackManager.expanded_retrieval o defaultSettings q
          quality_score := (o.rqScore (FallbackManager.expanded_retrieval o defaultSettings q)).1
          reason_codes := (o.rqScore (FallbackManager.expanded_retrieval o defaultSettings q)).2
          decision := "proceed" }) ∧
    (¬ (0.55 : ℚ) ≤ (o.rqScore (FallbackManager.expanded_retrieval o defaultSettings q)).1 →
      ((FallbackManager.fallback_retrieve o defaultSettings q).candidates,
        (FallbackManager.fallback_retrieve o defaultSettings q).quality_score,
        (FallbackManager.fallback_retrieve o defaultSettings q).reason_codes) ∈
          (FallbackManager.expanded_retrieval o defaultSettings q,
            o.rqScore (FallbackManager.expanded_retrieval o defaultSettings q)) ::
          (FallbackManager.query_rewrite o q).map (fun rw =>
            (FallbackManager.rewriteCandidates o defaultSettings q rw,
              o.rqScore (FallbackManager.rewriteCandidates o defaultSettings q rw))) ∧
      (∀ opt ∈ (FallbackManager.expanded_retrieval o defaultSettings q,
            o.rqScore (FallbackManager.expanded_retrieval o defaultSettings q)) ::
          (FallbackManager.query_rewrite o q).map (fun rw =>
            (FallbackManager.rewriteCandidates o defaultSettings q rw,
              o.rqScore (FallbackManager.rewriteCandidates o defaultSettings q rw))),
        opt.2.1 ≤ (FallbackManager.fallback_retrieve o defaultSettings q).quality_score) ∧
      ((FallbackManager.fallback_retrieve o defaultSettings q).decision = "proceed" ↔
        (0.25 : ℚ) ≤ (FallbackManager.fallback_retrieve o defaultSettings q).quality_score) ∧
      ((FallbackManager.fallback_retrieve o defaultSettings q).decision = "abstain" ↔
        (FallbackManager.fallback_retrieve o defaultSettings q).quality_score < (0.25 : ℚ))) := by
  have hq3 : (FallbackManager.query_rewrite o q).length ≤ 3 := by
    rw [FallbackManager.query_rewrite]
    cases o.llmRewriteStructured (QUERY_REWRITE_PROMPT q) with
    | some rewrites => simp
    | none =>
        cases o.llmRewriteManual (QUERY_REWRITE_PROMPT q) with
        | some rewrites => simp
        | none => simp
  refine ⟨rfl, hq3, ?_, ?_, ?_⟩
  · intro h1 h2
    rw [FallbackManager.query_rewrite, h1, h2]
  · intro hge
    rw [fallback_retrieve_eq,
      if_pos (show defaultSettings.rq_proceed_threshold ≤
        (o.rqScore (FallbackManager.expanded_retrieval o defaultSettings q)).1 from hge)]
  · intro hlt
    rw [fallback_retrieve_eq,
      if_neg (show ¬ defaultSettings.rq_proceed_threshold ≤
        (o.rqScore (FallbackManager.expanded_retrieval o defaultSettings q)).1 from hlt)]
    obtain ⟨hopt, hle, hall⟩ := bestOf_spec o defaultSettings q
      (FallbackManager.query_rewrite o q)
      (FallbackManager.expanded_retrieval o defaultSettings q,
        o.rqScore (FallbackManager.expanded_retrieval o defaultSettings q))
    have hps : ("proceed" : String) ≠ "abstain" := by decide
    by_cases hth : defaultSettings.rq_fallback_threshold ≤
        (FallbackManager.bestOf o defaultSettings q
          (FallbackManager.expanded_retrieval o defaultSettings q,
            o.rqScore (FallbackManager.expanded_retrieval o defaultSettings q))
          (FallbackManager.query_rewrite o q)).2.1
    · rw [if_pos hth]
      refine ⟨?_, ?_, ?_, ?_⟩
      · rcases hopt with heq | ⟨rw', hrw', heq⟩
        · simp only [heq, List.mem_cons]
          exact Or.inl trivial
        · simp only [heq, List.mem_cons, List.mem_map]
          exact Or.inr ⟨rw', hrw', rfl⟩
      · intro opt hmem
        rcases List.mem_cons.mp hmem with rfl | hmem2
        · exact hle
        · obtain ⟨rw', hrw', heq⟩ := List.mem_map.mp hmem2
          rw [← heq]
          exact hall rw' hrw'
      · exact iff_of_true rfl hth
      · exact iff_of_false hps (not_lt.mpr hth)
    · rw [if_neg hth]
      refine ⟨?_, ?_, ?_, ?_⟩
      · rcases hopt with heq | ⟨rw', hrw', heq⟩
        · simp only [heq, List.mem_cons]
          exact Or.inl trivial
        · simp only [heq, List.mem_cons, List.mem_map]
          exact Or.inr ⟨rw', hrw', rfl⟩
      · intro opt hmem
        rcases List.mem_cons.mp hmem with rfl | hmem2
        · exact hle
        · obtain ⟨rw', hrw', heq⟩ := List.mem_map.mp hmem2
          rw [← heq]
          exact hall rw' hrw'
      · exact iff_of_false (Ne.symm hps) hth
      · exact iff_of_true rfl (lt_of_not_le hth)

/-- C6 witness: fallback_retrieve on a collaborator whose expanded retrieval
already rescores to 0.8 returns proceed from the expansion step. -/
theorem fallback_retrieve_spec_witness :
    (FallbackManager.fallback_retrieve exCollabVerifierAbstain defaultSettings "q").decision =
      "proceed" := by
  have h := (fallback_retrieve_spec exCollabVerifierAbstain "q").2.2.2.1
    (by norm_num [exCollabVerifierAbstain])
  rw [h]

/-- C1 (amended): every abstain response carries one of the two fixed refusal
strings; the abstains built by _build_abstain_response (RQ gate, fallback
failure, low-RQ self-admitted ignorance) have the fixed refusal string, empty
citations and confidence exactly 0.0, while a verifier abstain instead carries
the other fixed refusal text together with the generator's citations and the
combined confidence score. -/
theorem execute_abstain_presentation (o : Collab) (s : Settings) (req : QueryRequest)
    (h : (QueryPipeline.execute o s req).decision = "abstain") :
    ((QueryPipeline.execute o s req).answer = abstainRefusal ∧
      (QueryPipeline.execute o s req).citations = [] ∧
      (QueryPipeline.execute o s req).confidence = 0) ∨
    (QueryPipeline.execute o s req).answer = verifierAbstainText := by
  rcases hpp : pipelinePrefix o s req with ⟨norm, dcp, rer, rq0, rs0⟩
  simp only [QueryPipeline.execute, hpp] at h ⊢
  cases hg : gateStep o s req.mode norm rer rq0 rs0 with
  | abstained rs =>
      simp only [hg] at h ⊢
      exact Or.inl ⟨rfl, rfl, rfl⟩
  | proceed cands rq rs =>
      simp only [hg] at h ⊢
      rcases hv : verifyStep o s req.mode norm cands rq
        (AnswerGenerator.generate o.llmGen norm cands (some dcp) req.mode).answer with ⟨ver, conf⟩
      simp only [hv] at h ⊢
      by_cases hig : answerAdmitsIgnorance
          (AnswerGenerator.generate o.llmGen norm cands (some dcp) req.mode).answer = true
      · rw [if_pos hig] at h ⊢
        by_cases hth : s.rq_proceed_threshold ≤ rq
        · rw [if_pos hth] at h
          exact absurd h (by simp [buildClarifyResponse])
        · rw [if_neg hth] at h ⊢
          exact Or.inl ⟨rfl, rfl, rfl⟩
      · rw [if_neg hig] at h ⊢
        simp only [buildFinalResponse] at h ⊢
        rw [if_pos h]
        exact Or.inr rfl

/-- Concatenating the single streamed fragment gives the example answer. -/
theorem join_fact : String.join ["Fact [1]."] = "Fact [1]." := by decide

/-- The example answer does not admit ignorance. -/
theorem fact_not_ignorant : ¬ answerAdmitsIgnorance "Fact [1]." = true := by decide

/-- The example ignorance answer matches the refusal allow-list. -/
theorem ignorant_answer_detected : answerAdmitsIgnorance
    "The documents do not contain information about this. [1]" = true := by decide

/-- Joining the ignorance fragment gives the ignorance answer. -/
theorem join_ignorant : String.join
    ["The documents do not contain information about this. [1]"] =
    "The documents do not contain information about this. [1]" := by decide

/-- Stage 1-5 evaluation for the shared example collaborator prefix. -/
theorem prefix_eval (o : Collab) (rqv : ℚ × List String)
    (hqu : o.quNormalize = fun q => q)
    (hdec : o.decompose = fun q =>
      { original := q, sub_questions := [q], synthesis_instruction := "" })
    (hret : o.retrieve = fun _ _ _ => [exCand 1 1])
    (hrr : o.rerank = fun _ cands _ => cands)
    (hrq : o.rqScore = fun _ => rqv) :
    pipelinePrefix o defaultSettings exRequest =
      ("q", { original := "q", sub_questions := ["q"], synthesis_instruction := "" },
        [exCand 1 1], rqv.1, rqv.2) := by
  simp [pipelinePrefix, hqu, hdec, hret, hrr, hrq, exRequest, deduplicate, dedupInsert]

/-- Gate evaluation: with normal mode and rq at least the proceed threshold
the gate passes the candidates through. -/
theorem gate_proceed_eval (o : Collab) (cands : List RetrievalCandidate) (rq : ℚ)
    (rs : List String) (hge : defaultSettings.rq_proceed_threshold ≤ rq) :
    gateStep o defaultSettings "normal" "q" cands rq rs = .proceed cands rq rs := by
  rw [gateStep]
  have h1 : ¬ rq < defaultSettings.rq_fallback_threshold := by
    simp only [defaultSettings] at hge ⊢
    norm_num at hge ⊢
    linarith
  have h2 : ¬ rq < (if ("normal" : String) = "strict" then
      defaultSettings.strict_rq_proceed_threshold else defaultSettings.rq_proceed_threshold) := by
    simp only [show ¬ ("normal" : String) = "strict" by decide, if_false]
    exact not_lt.mpr hge
  rw [if_neg h1, if_neg h2]

/-- Gate evaluation: below the fallback threshold the gate abstains at once. -/
theorem gate_abstain_eval (o : Collab) (cands : List RetrievalCandidate) (rq : ℚ)
    (rs : List String) (hlt : rq < defaultSettings.rq_fallback_threshold) :
    gateStep o defaultSettings "normal" "q" cands rq rs = .abstained rs := by
  rw [gateStep, if_pos hlt]

/-- Generation evaluation for a one-fragment LLM: the answer is the fragment
and the citations are parsed from it. -/
theorem generate_eval (o : Collab) (ans : String) (hllm : o.llmChunks = fun _ _ => [ans])
    (hjoin : String.join [ans] = ans) (evidence : List RetrievalCandidate)
    (dcp : Option DecomposedQuery) (mode : String) :
    AnswerGenerator.generate o.llmGen "q" evidence dcp mode =
      { answer := ans, cited_chunks := citedChunksFor ans evidence,
        cited_spans := citedSpansFor ans evidence } := by
  rw [AnswerGenerator.generate.eq_def]
  simp only [Collab.llmGen, hllm, hjoin]

/-- Citation parsing of the example answer against the one-chunk evidence. -/
theorem cited_fact_eval : citedChunksFor "Fact [1]." [exCand 1 1] = [exChunk 1] := by
  rw [citedChunksFor, show citedIndices "Fact [1]." = [1] by decide]
  simp [List.filterMap_cons, exCand]

/-- Citation parsing of the ignorance answer against the one-chunk evidence. -/
theorem cited_ignorant_eval : citedChunksFor
    "The documents do not contain information about this. [1]" [exCand 1 1] =
    [exChunk 1] := by
  rw [citedChunksFor, show citedIndices
    "The documents do not contain information about this. [1]" = [1] by decide]
  simp [List.filterMap_cons, exCand]

/-- Verification evaluation on the warn example: groundedness 0.6 and
contradiction 0 give a warn decision with no reason codes and confidence
0.61. -/
theorem verify_warn_eval (normalized answer : String) (cands : List RetrievalCandidate) :
    verifyStep exCollabVerifierWarn defaultSettings "normal" normalized cands 0.8 answer =
      ({ groundedness_score := 0.6, contradiction_rate := 0,
         self_consistency_score := none, decision := "warn", reason_codes := [] },
        0.61) := by
  rw [verifyStep]
  simp only [exCollabVerifierWarn, exCollabVerifierAbstain]
  rw [VerificationDecisionMaker.decide.eq_def, ConfidenceScorer.score]
  simp only [show ¬ ("normal" : String) = "strict" by decide, if_false]
  norm_num [defaultSettings]

/-- Verification evaluation on the abstain example: groundedness 0 gives an
abstain decision with LOW_GROUNDEDNESS and confidence 0.4. -/
theorem verify_abstain_eval (normalized answer : String) (cands : List RetrievalCandidate) :
    verifyStep exCollabVerifierAbstain defaultSettings "normal" normalized cands 0.8 answer =
      ({ groundedness_score := 0, contradiction_rate := 0,
         self_consistency_score := none, decision := "abstain",
         reason_codes := [ReasonCode.LOW_GROUNDEDNESS] },
        0.4) := by
  rw [verifyStep]
  simp only [exCollabVerifierAbstain]
  rw [VerificationDecisionMaker.decide.eq_def, ConfidenceScorer.score]
  simp only [show ¬ ("normal" : String) = "strict" by decide, if_false]
  norm_num [defaultSettings]

/-- C1 counterexample: a verifier abstain does not follow the fixed abstain
presentation.  On a concrete run whose verifier abstains (groundedness 0),
the response has decision abstain but confidence 0.4 rather than 0.0,
non-empty citations, and a refusal text different from the fixed refusal
string of _build_abstain_response. -/
theorem verifier_abstain_counterexample :
    (QueryPipeline.execute exCollabVerifierAbstain defaultSettings exRequest).decision =
      "abstain" ∧
    (QueryPipeline.execute exCollabVerifierAbstain defaultSettings exRequest).confidence =
      0.4 ∧
    (QueryPipeline.execute exCollabVerifierAbstain defaultSettings exRequest).citations =
      [toCitation (exChunk 1)] ∧
    (QueryPipeline.execute exCollabVerifierAbstain defaultSettings exRequest).answer =
      verifierAbstainText ∧
    verifierAbstainText ≠ abstainRefusal := by
  have hpp := prefix_eval exCollabVerifierAbstain (0.8, []) rfl rfl rfl rfl rfl
  have hgen := generate_eval exCollabVerifierAbstain "Fact [1]." rfl join_fact
    [exCand 1 1] (some { original := "q", sub_questions := ["q"], synthesis_instruction := "" })
    "normal"
  have hg := gate_proceed_eval exCollabVerifierAbstain [exCand 1 1] 0.8 []
    (by norm_num [defaultSettings])
  have hv := verify_abstain_eval "q" "Fact [1]." [exCand 1 1]
  have hpp2 : pipelinePrefix exCollabVerifierAbstain defaultSettings exRequest =
      ("q", { original := "q", sub_questions := ["q"], synthesis_instruction := "" },
        [exCand 1 1], 0.8, []) := by simpa using hpp
  simp only [QueryPipeline.execute, hpp2, show exRequest.mode = "normal" from rfl, hg, hgen]
  rw [if_neg fact_not_ignorant]
  simp only [hv, buildFinalResponse, mapDecision,
    show ¬ ("abstain" : String) = "pass" by decide,
    show ¬ ("abstain" : String) = "warn" by decide, if_false]
  refine ⟨trivial, ?_, ?_, ?_, by decide⟩
  · rw [show pyRound4 0.4 = 0.4 by
      rw [pyRound4, pyRoundInt]
      norm_num [Int.fract]]
  · rw [cited_fact_eval]
    rfl
  · simp

/-- C1 witness: the amended abstain-presentation theorem applied to a concrete
run that abstains at the RQ gate. -/
theorem execute_abstain_presentation_witness :
    ((QueryPipeline.execute exCollabLowRq defaultSettings exRequest).answer =
        abstainRefusal ∧
      (QueryPipeline.execute exCollabLowRq defaultSettings exRequest).citations = [] ∧
      (QueryPipeline.execute exCollabLowRq defaultSettings exRequest).confidence = 0) ∨
    (QueryPipeline.execute exCollabLowRq defaultSettings exRequest).answer =
      verifierAbstainText := by
  apply execute_abstain_presentation
  have hpp := prefix_eval exCollabLowRq (0.1, [ReasonCode.LOW_RELEVANCE]) rfl rfl rfl rfl rfl
  have hg := gate_abstain_eval exCollabLowRq [exCand 1 1] 0.1 [ReasonCode.LOW_RELEVANCE]
    (by norm_num [defaultSettings])
  have hpp2 : pipelinePrefix exCollabLowRq defaultSettings exRequest =
      ("q", { original := "q", sub_questions := ["q"], synthesis_instruction := "" },
        [exCand 1 1], 0.1, [ReasonCode.LOW_RELEVANCE]) := by simpa using hpp
  simp only [QueryPipeline.execute, hpp2, show exRequest.mode = "normal" from rfl, hg]
  rfl

/-- The metadata payload of a stream that emits token events first. -/
theorem streamMetadata_tokens (chunks : List String) (r : QueryResponse)
    (rest : List SSEvent) :
    streamMetadata (chunks.map SSEvent.token ++ SSEvent.metadata r :: rest) = some r := by
  induction chunks with
  | nil => rfl
  | cons c t ih =>
      simp only [List.map_cons, List.cons_append]
      rw [streamMetadata, List.findSome?_cons]
      exact ih

/-- C2 (amended): the QueryResponse carried by the metadata event of
execute_stream agrees with the response returned by execute in citations,
confidence, decision and reasons; the answer text also agrees on the early
exits (RQ-gate abstain, fallback failure, self-admitted ignorance) and when
the decision is answer, but on the verifier clarify path the stream answer
lacks the fixed caveat and on the verifier abstain path it is the raw
generated answer rather than the fixed refusal text. -/
theorem execute_stream_metadata_agreement (o : Collab) (s : Settings)
    (req : QueryRequest) :
    ∃ m, streamMetadata (QueryPipeline.execute_stream o s req) = some m ∧
      m.citations = (QueryPipeline.execute o s req).citations ∧
      m.confidence = (QueryPipeline.execute o s req).confidence ∧
      m.decision = (QueryPipeline.execute o s req).decision ∧
      m.reasons = (QueryPipeline.execute o s req).reasons ∧
      (m.decision = "answer" → m.answer = (QueryPipeline.execute o s req).answer) ∧
      (m.decision = "clarify" →
        (QueryPipeline.execute o s req).answer = m.answer ∨
        (QueryPipeline.execute o s req).answer = m.answer ++ clarifyCaveat) ∧
      (m.decision = "abstain" →
        (QueryPipeline.execute o s req).answer = m.answer ∨
        (QueryPipeline.execute o s req).answer = verifierAbstainText) := by
  rcases hpp : pipelinePrefix o s req with ⟨norm, dcp, rer, rq0, rs0⟩
  simp only [QueryPipeline.execute, QueryPipeline.execute_stream, hpp]
  cases hg : gateStep o s req.mode norm rer rq0 rs0 with
  | abstained rs =>
      simp only [hg]
      refine ⟨buildAbstainResponse rs, rfl, rfl, rfl, rfl, rfl, ?_, ?_, ?_⟩
      · intro hcontra
        simp [buildAbstainResponse] at hcontra
      · intro hcontra
        simp [buildAbstainResponse] at hcontra
      · intro _
        exact Or.inl rfl
  | proceed cands rq rs =>
      simp only [hg]
      rcases hv : verifyStep o s req.mode norm cands rq
        (AnswerGenerator.generate o.llmGen norm cands (some dcp) req.mode).answer with ⟨ver, conf⟩
      simp only [hv]
      by_cases hig : answerAdmitsIgnorance
          (AnswerGenerator.generate o.llmGen norm cands (some dcp) req.mode).answer = true
      · rw [if_pos hig, if_pos hig]
        by_cases hth : s.rq_proceed_threshold ≤ rq
        · rw [if_pos hth]
          refine ⟨_, streamMetadata_tokens _ _ _, rfl, rfl, rfl, rfl, ?_, ?_, ?_⟩
          · intro hcontra
            simp [buildClarifyResponse] at hcontra
          · intro _
            exact Or.inl rfl
          · intro hcontra
            simp [buildClarifyResponse] at hcontra
        · rw [if_neg hth]
          refine ⟨_, streamMetadata_tokens _ _ _, rfl, rfl, rfl, rfl, ?_, ?_, ?_⟩
          · intro hcontra
            simp [buildAbstainResponse] at hcontra
          · intro hcontra
            simp [buildAbstainResponse] at hcontra
          · intro _
            exact Or.inl rfl
      · rw [if_neg hig, if_neg hig]
        refine ⟨_, streamMetadata_tokens _ _ _, rfl, rfl, rfl, rfl, ?_, ?_, ?_⟩
        · intro hdec
          simp only [buildStreamMetadata] at hdec
          simp [buildFinalResponse, buildStreamMetadata, hdec]
        · intro hdec
          simp only [buildStreamMetadata] at hdec
          refine Or.inr ?_
          simp [buildFinalResponse, buildStreamMetadata, hdec]
        · intro hdec
          simp only [buildStreamMetadata] at hdec
          refine Or.inr ?_
          simp [buildFinalResponse, buildStreamMetadata, hdec]

/-- C2 counterexample: on a concrete verifier-warn run the metadata event of
execute_stream is not the QueryResponse that execute returns — the stream's
answer lacks the clarify caveat. -/
theorem stream_metadata_counterexample :
    streamMetadata
        (QueryPipeline.execute_stream exCollabVerifierWarn defaultSettings exRequest) ≠
      some (QueryPipeline.execute exCollabVerifierWarn defaultSettings exRequest) := by
  have hpp := prefix_eval exCollabVerifierWarn (0.8, []) rfl rfl rfl rfl rfl
  have hpp2 : pipelinePrefix exCollabVerifierWarn defaultSettings exRequest =
      ("q", { original := "q", sub_questions := ["q"], synthesis_instruction := "" },
        [exCand 1 1], 0.8, []) := by simpa using hpp
  have hgen := generate_eval exCollabVerifierWarn "Fact [1]." rfl join_fact
    [exCand 1 1] (some { original := "q", sub_questions := ["q"], synthesis_instruction := "" })
    "normal"
  have hg := gate_proceed_eval exCollabVerifierWarn [exCand 1 1] 0.8 []
    (by norm_num [defaultSettings])
  have hv := verify_warn_eval "q" "Fact [1]." [exCand 1 1]
  simp only [QueryPipeline.execute, QueryPipeline.execute_stream, hpp2,
    show exRequest.mode = "normal" from rfl, hg, hgen]
  rw [if_neg fact_not_ignorant, if_neg fact_not_ignorant]
  simp only [hv]
  rw [streamMetadata_tokens]
  intro hcontra
  rw [Option.some.injEq] at hcontra
  have hans := congrArg QueryResponse.answer hcontra
  simp only [buildStreamMetadata, buildFinalResponse, mapDecision] at hans
  simp at hans
  exact absurd hans (by decide)

/-- C2 witness: the stream-metadata agreement applied to a concrete run that
abstains at the RQ gate. -/
theorem execute_stream_metadata_agreement_witness :
    ∃ m, streamMetadata
        (QueryPipeline.execute_stream exCollabLowRq defaultSettings exRequest) = some m ∧
      m.decision = (QueryPipeline.execute exCollabLowRq defaultSettings exRequest).decision := by
  obtain ⟨m, hm, -, -, hdec, -⟩ :=
    execute_stream_metadata_agreement exCollabLowRq defaultSettings exRequest
  exact ⟨m, hm, hdec⟩

/-- C5 (amended): when the generated answer matches the refusal allow-list the
pipeline bypasses verification: it returns clarify iff the current rq is at
least the (mode-independent) proceed threshold 0.55, with confidence equal to
rq*0.5 rounded to four decimal places and the parsed citations preserved, and
abstains otherwise. -/
theorem ignorance_policy (o : Collab) (req : QueryRequest)
    (cands : List RetrievalCandidate) (rq : ℚ) (reasons : List String)
    (hg : gateStep o defaultSettings req.mode
        (pipelinePrefix o defaultSettings req).1
        (pipelinePrefix o defaultSettings req).2.2.1
        (pipelinePrefix o defaultSettings req).2.2.2.1
        (pipelinePrefix o defaultSettings req).2.2.2.2 =
        .proceed cands rq reasons)
    (hig : answerAdmitsIgnorance
        (AnswerGenerator.generate o.llmGen (pipelinePrefix o defaultSettings req).1 cands
          (some (pipelinePrefix o defaultSettings req).2.1) req.mode).answer = true) :
    ((QueryPipeline.execute o defaultSettings req).decision = "clarify" ↔ (0.55 : ℚ) ≤ rq) ∧
    ((0.55 : ℚ) ≤ rq →
      QueryPipeline.execute o defaultSettings req =
        buildClarifyResponse
          (AnswerGenerator.generate o.llmGen (pipelinePrefix o defaultSettings req).1 cands
            (some (pipelinePrefix o defaultSettings req).2.1) req.mode)
          rq (reasons ++ [ReasonCode.LOW_GROUNDEDNESS]) ∧
      (QueryPipeline.execute o defaultSettings req).confidence = pyRound4 (rq * 0.5) ∧
      (QueryPipeline.execute o defaultSettings req).citations =
        (AnswerGenerator.generate o.llmGen (pipelinePrefix o defaultSettings req).1 cands
          (some (pipelinePrefix o defaultSettings req).2.1) req.mode).cited_chunks.map
          toCitation) ∧
    (¬ (0.55 : ℚ) ≤ rq →
      QueryPipeline.execute o defaultSettings req =
        buildAbstainResponse (reasons ++ [ReasonCode.LOW_GROUNDEDNESS])) := by
  simp only [QueryPipeline.execute, hg]
  rw [if_pos hig]
  by_cases hle : (0.55 : ℚ) ≤ rq
  · rw [if_pos (show defaultSettings.rq_proceed_threshold ≤ rq from hle)]
    exact ⟨iff_of_true rfl hle, fun _ => ⟨rfl, rfl, rfl⟩, fun hcontra => absurd hle hcontra⟩
  · rw [if_neg (show ¬ defaultSettings.rq_proceed_threshold ≤ rq from hle)]
    exact ⟨iff_of_false (by simp [buildAbstainResponse]) hle,
      fun hcontra => absurd hcontra hle, fun _ => rfl⟩

/-- C5 counterexample: the clarify confidence is not exactly rq*0.5.  On a
concrete self-admitted-ignorance run with rq = 0.55511 the pipeline clarifies
with confidence round(0.55511*0.5, 4) = 0.2776, which differs from
0.55511*0.5 = 0.277555. -/
theorem ignorance_confidence_counterexample :
    (QueryPipeline.execute exCollabIgnorance defaultSettings exRequest).decision =
      "clarify" ∧
    (QueryPipeline.execute exCollabIgnorance defaultSettings exRequest).confidence =
      0.2776 ∧
    ¬ (QueryPipeline.execute exCollabIgnorance defaultSettings exRequest).confidence =
      0.55511 * 0.5 := by
  have hpp2 : pipelinePrefix exCollabIgnorance defaultSettings exRequest =
      ("q", { original := "q", sub_questions := ["q"], synthesis_instruction := "" },
        [exCand 1 1], 0.55511, []) := by
    simpa using prefix_eval exCollabIgnorance (0.55511, []) rfl rfl rfl rfl rfl
  have hgen := generate_eval exCollabIgnorance
    "The documents do not contain information about this. [1]" rfl join_ignorant
    [exCand 1 1] (some { original := "q", sub_questions := ["q"], synthesis_instruction := "" })
    "normal"
  have hg := gate_proceed_eval exCollabIgnorance [exCand 1 1] 0.55511 []
    (by norm_num [defaultSettings])
  have hround : pyRound4 (0.55511 * 0.5) = 0.2776 := by
    have hc : (⌈(0.55511 * 0.5 * 10000 : ℚ)⌉ : ℤ) = 2776 := by
      rw [Int.ceil_eq_iff]
      norm_num
    rw [pyRound4, pyRoundInt, hc]
    norm_num [Int.fract]
  simp only [QueryPipeline.execute, hpp2, show exRequest.mode = "normal" from rfl, hg, hgen]
  rw [if_pos ignorant_answer_detected,
    if_pos (show defaultSettings.rq_proceed_threshold ≤ 0.55511 by norm_num [defaultSettings])]
  refine ⟨rfl, ?_, ?_⟩
  · simp only [buildClarifyResponse]
    rw [hround]
  · simp only [buildClarifyResponse]
    rw [hround]
    norm_num

/-- C5 witness: the ignorance-policy theorem applied to the concrete
rq = 0.55511 ignorance run, showing the clarify arm fires. -/
theorem ignorance_policy_witness :
    (QueryPipeline.execute exCollabIgnorance defaultSettings exRequest).decision =
      "clarify" := by
  have hpp2 : pipelinePrefix exCollabIgnorance defaultSettings exRequest =
      ("q", { original := "q", sub_questions := ["q"], synthesis_instruction := "" },
        [exCand 1 1], 0.55511, []) := by
    simpa using prefix_eval exCollabIgnorance (0.55511, []) rfl rfl rfl rfl rfl
  have hgen := generate_eval exCollabIgnorance
    "The documents do not contain information about this. [1]" rfl join_ignorant
    [exCand 1 1] (some { original := "q", sub_questions := ["q"], synthesis_instruction := "" })
    "normal"
  have hg : gateStep exCollabIgnorance defaultSettings exRequest.mode
      (pipelinePrefix exCollabIgnorance defaultSettings exRequest).1
      (pipelinePrefix exCollabIgnorance defaultSettings exRequest).2.2.1
      (pipelinePrefix exCollabIgnorance defaultSettings exRequest).2.2.2.1
      (pipelinePrefix exCollabIgnorance defaultSettings exRequest).2.2.2.2 =
      .proceed [exCand 1 1] 0.55511 [] := by
    simp only [hpp2]
    exact gate_proceed_eval exCollabIgnorance [exCand 1 1] 0.55511 []
      (by norm_num [defaultSettings])
  have hig : answerAdmitsIgnorance
      (AnswerGenerator.generate exCollabIgnorance.llmGen
        (pipelinePrefix exCollabIgnorance defaultSettings exRequest).1 [exCand 1 1]
        (some (pipelinePrefix exCollabIgnorance defaultSettings exRequest).2.1)
        exRequest.mode).answer = true := by
    simp only [hpp2, show exRequest.mode = "normal" from rfl, hgen]
    exact ignorant_answer_detected
  exact (ignorance_policy exCollabIgnorance exRequest [exCand 1 1] 0.55511 [] hg hig).1.mpr
    (by norm_num)
